import Mathlib

/-! Energram keypad lock: the security state machine.

A shallow embedding of the security-relevant part of `src/main.cpp`
(PIN verification, lockout bookkeeping, EEPROM persistence, key debounce)
together with theorems about it.

Conventions of the embedding.

* Every global variable of the sketch that the security logic uses is a field
  of `State`; the variables of the charge-direction detection are the fields
  of `PowerState`.
* `unsigned long` is 32 bits wide on the target (ESP32); `uint8_t` is 8 bits.
  Values are natural numbers and every arithmetic operation of the source
  that can wrap is written with an explicit reduction modulo `2^32` or `2^8`.
* Every call of `millis()` is an explicit argument of the function that makes
  the call (the value the call returned), in the order of the calls.
* Display and serial output have no effect on the variables modelled here and
  are left out; `delay` only lets time pass, which the explicit `millis()`
  readings account for.
-/

namespace Energram

/-! ## Constants (the `#define`s of the sketch) -/

/-- The constant `MAX_ATTEMPTS`. -/
abbrev MAX_ATTEMPTS : Nat := 5

/-- The constant `LOCKOUT_DURATION`, in milliseconds. -/
abbrev LOCKOUT_DURATION : Nat := 120000

/-- The constant `KEY_DEBOUNCE_TIME`, in milliseconds. -/
abbrev KEY_DEBOUNCE_TIME : Nat := 200

/-- The constant `ATTEMPTS_ADDR`. -/
abbrev ATTEMPTS_ADDR : Nat := 0

/-- The constant `LOCKOUT_START_ADDR`. -/
abbrev LOCKOUT_START_ADDR : Nat := 4

/-- The constant `LOCKOUT_ACTIVE_ADDR`. -/
abbrev LOCKOUT_ACTIVE_ADDR : Nat := 8

/-- The constant `LOCKOUT_TIMESTAMP_ADDR`. -/
abbrev LOCKOUT_TIMESTAMP_ADDR : Nat := 12

/-- The constant `BOOT_TIMESTAMP_ADDR`. -/
abbrev BOOT_TIMESTAMP_ADDR : Nat := 20

/-- The literal `0xFFFFFFFF`, the largest `unsigned long`. -/
abbrev ULONG_MAX : Nat := 4294967295

/-- The string literal `CORRECT_PIN`, `"1911"`, as a C string: its characters
followed by the terminating zero. -/
def CORRECT_PIN : Nat → Char := fun i =>
  if i = 0 then '1' else if i = 1 then '9' else if i = 2 then '1'
  else if i = 3 then '1' else '\x00'

/-! ## Machine arithmetic -/

/-- Addition of two `unsigned long` values. -/
def uadd (a b : Nat) : Nat := (a + b) % 4294967296

/-- Subtraction of two `unsigned long` values (wraps below zero). -/
def usub (a b : Nat) : Nat := (a + (4294967296 - b % 4294967296)) % 4294967296

/-- Multiplication of two `unsigned long` values. -/
def umul (a b : Nat) : Nat := (a * b) % 4294967296

/-! ## The persistent store -/

/-- Modelled from the spec: the persistent byte store (the `EEPROM` object of
the platform library, which is not part of the repository). It is a flat
addressable byte array with an explicit commit: `data` is the working copy
that `get` and `put` act on, `flash` is what a commit last wrote and what
survives a power loss. -/
structure EEPROMClass where
  data : Nat → Nat
  flash : Nat → Nat

namespace EEPROMClass

/-- Modelled from the spec: `get<uint8_t>(offset)`. -/
def get8 (e : EEPROMClass) (a : Nat) : Nat := e.data a % 256

/-- Modelled from the spec: `get<unsigned long>(offset)`, four bytes, least
significant first. -/
def get32 (e : EEPROMClass) (a : Nat) : Nat :=
  e.get8 a + 256 * e.get8 (a + 1) + 65536 * e.get8 (a + 2) + 16777216 * e.get8 (a + 3)

/-- Modelled from the spec: `put<uint8_t>(offset, value)`. -/
def put8 (e : EEPROMClass) (a v : Nat) : EEPROMClass :=
  { e with data := fun i => if i = a then v % 256 else e.data i }

/-- Modelled from the spec: `put<unsigned long>(offset, value)`, four bytes,
least significant first. -/
def put32 (e : EEPROMClass) (a v : Nat) : EEPROMClass :=
  { e with data := fun i =>
      if i = a then v % 256
      else if i = a + 1 then v / 256 % 256
      else if i = a + 2 then v / 65536 % 256
      else if i = a + 3 then v / 16777216 % 256
      else e.data i }

/-- Modelled from the spec: `commit()`, which makes the working copy durable. -/
def commit (e : EEPROMClass) : EEPROMClass := { e with flash := e.data }

/-- Modelled from the spec: `begin(size)`, which at boot loads the durable
content into the working copy. -/
def begin (e : EEPROMClass) : EEPROMClass := { e with data := e.flash }

/-- What a committed store holds at a byte offset. -/
def flash8 (e : EEPROMClass) (a : Nat) : Nat := e.flash a % 256

/-- What a committed store holds in the four bytes from an offset. -/
def flash32 (e : EEPROMClass) (a : Nat) : Nat :=
  e.flash8 a + 256 * e.flash8 (a + 1) + 65536 * e.flash8 (a + 2)
    + 16777216 * e.flash8 (a + 3)

end EEPROMClass

/-! ## The global variables -/

/-- The global variables of the sketch that the security logic reads or
writes, the relay output pin and the persistent store. -/
structure State where
  enteredPin : Nat → Char
  pinPosition : Nat
  failedAttempts : Nat
  lockoutStartTime : Nat
  authenticated : Bool
  systemLocked : Bool
  lastKeyPressTime : Nat
  lastKey : Char
  systemBootTime : Nat
  lockoutRealStartTime : Nat
  relay : Bool
  EEPROM : EEPROMClass

/-- The values the global variables have when the program starts, over a
persistent store with the given durable content (`EEPROM.begin` included). -/
def initialState (flash : Nat → Nat) : State :=
  { enteredPin := fun i => if i < 4 then '-' else '\x00'
    pinPosition := 0
    failedAttempts := 0
    lockoutStartTime := 0
    authenticated := false
    systemLocked := false
    lastKeyPressTime := 0
    lastKey := '\x00'
    systemBootTime := 0
    lockoutRealStartTime := 0
    relay := false
    EEPROM := EEPROMClass.begin { data := fun _ => 0, flash := flash } }

/-! ## Real-time functions -/

/-- The function `initializeRTC`; `ms` is its `millis()` reading. -/
def initializeRTC (ms : Nat) (s : State) : State :=
  { s with systemBootTime := ms }

/-- The function `getRealTimeSeconds`; `ms` is its `millis()` reading. -/
def getRealTimeSeconds (ms : Nat) (s : State) : Nat :=
  usub ms s.systemBootTime / 1000

/-- The function `saveRealTimestamp`; `ms` is the `millis()` reading of its
call of `getRealTimeSeconds`. -/
def saveRealTimestamp (ms : Nat) (s : State) : State :=
  let currentRealTime := getRealTimeSeconds ms s
  let e1 := s.EEPROM.put32 LOCKOUT_TIMESTAMP_ADDR currentRealTime
  let e2 := e1.put32 BOOT_TIMESTAMP_ADDR s.systemBootTime
  { s with EEPROM := e2.commit }

/-- The function `loadRealTimestamp`. -/
def loadRealTimestamp (s : State) : Nat :=
  let savedTimestamp := s.EEPROM.get32 LOCKOUT_TIMESTAMP_ADDR
  let savedBootTime := s.EEPROM.get32 BOOT_TIMESTAMP_ADDR
  if savedTimestamp = ULONG_MAX ∨ savedBootTime = ULONG_MAX then 0
  else savedTimestamp

/-! ## Persistence of the security state -/

/-- The function `saveSecurityState`. -/
def saveSecurityState (s : State) : State :=
  let e1 := s.EEPROM.put8 ATTEMPTS_ADDR s.failedAttempts
  let e2 := e1.put32 LOCKOUT_START_ADDR s.lockoutStartTime
  let lockoutActive := if s.systemLocked then 1 else 0
  let e3 := e2.put8 LOCKOUT_ACTIVE_ADDR lockoutActive
  { s with EEPROM := e3.commit }

/-- The function `loadSecurityState`; `ms` is its `millis()` reading. -/
def loadSecurityState (ms : Nat) (s : State) : State :=
  let s := { s with
    failedAttempts := s.EEPROM.get8 ATTEMPTS_ADDR
    lockoutStartTime := s.EEPROM.get32 LOCKOUT_START_ADDR }
  let s :=
    if s.failedAttempts > MAX_ATTEMPTS ∨ s.failedAttempts = 255 then
      { s with failedAttempts := 0 }
    else s
  let currentTime := ms
  if s.lockoutStartTime > uadd currentTime LOCKOUT_DURATION ∨ s.lockoutStartTime = ULONG_MAX then
    { s with lockoutStartTime := 0, failedAttempts := 0 }
  else s

/-! ## PIN entry -/

/-- The function `resetPinEntry`. -/
def resetPinEntry (s : State) : State :=
  { s with
    pinPosition := 0
    enteredPin := fun i => if i < 4 then '-' else if i = 4 then '\x00' else s.enteredPin i }

/-- The library function `strncmp` on C strings given as index-to-character
maps, comparing at most `n` characters from index `i` on: the difference of
the first pair of characters that differ, `0` when none differs before a
terminating zero or before `n` characters were compared. -/
def strncmp (s1 s2 : Nat → Char) (i : Nat) : Nat → Int
  | 0 => 0
  | n + 1 =>
    if s1 i ≠ s2 i then ((s1 i).toNat : Int) - ((s2 i).toNat : Int)
    else if s1 i = '\x00' then 0
    else strncmp s1 s2 (i + 1) n

/-- The function `verifyPin`. `ms1` is the `millis()` reading stored as the
lockout start, `ms2` the reading of its call of `getRealTimeSeconds`, `ms3`
the reading inside `saveRealTimestamp`; the three are only read on the path
that declares a lockout. -/
def verifyPin (ms1 ms2 ms3 : Nat) (s : State) : State :=
  let s := { s with enteredPin := fun i => if i = 4 then '\x00' else s.enteredPin i }
  if strncmp s.enteredPin CORRECT_PIN 0 4 = 0 then
    let s := { s with
      authenticated := true
      failedAttempts := 0
      lockoutStartTime := 0
      lockoutRealStartTime := 0 }
    let s := saveSecurityState s
    { s with relay := true }
  else
    let s := { s with failedAttempts := (s.failedAttempts + 1) % 256 }
    let s :=
      if s.failedAttempts ≥ MAX_ATTEMPTS then
        let s := { s with
          lockoutStartTime := ms1
          lockoutRealStartTime := getRealTimeSeconds ms2 s
          systemLocked := true }
        saveRealTimestamp ms3 s
      else s
    let s := saveSecurityState s
    resetPinEntry s

/-- The function `isValidKeyPress`; `ms` is its `millis()` reading. It returns
the result together with the variables after the call. -/
def isValidKeyPress (key : Char) (ms : Nat) (s : State) : Bool × State :=
  let currentTime := ms
  if usub currentTime s.lastKeyPressTime < KEY_DEBOUNCE_TIME then (false, s)
  else if key = s.lastKey ∧ usub currentTime s.lastKeyPressTime < KEY_DEBOUNCE_TIME * 2 then
    (false, s)
  else (true, { s with lastKeyPressTime := currentTime, lastKey := key })

/-- The function `deleteLastDigit`. -/
def deleteLastDigit (s : State) : State :=
  if s.pinPosition > 0 then
    { s with
      pinPosition := s.pinPosition - 1
      enteredPin := fun i => if i = s.pinPosition - 1 then '-' else s.enteredPin i }
  else s

/-- The function `handlePinEntry`. `key` is what `customKeypad.getKey()`
returned (the zero character when no key is pressed), `ms` the `millis()`
reading of `isValidKeyPress`, which is only called for a key, and `ms1`,
`ms2`, `ms3` the readings of `verifyPin`, which is only called when the
fourth digit has been entered. -/
def handlePinEntry (key : Char) (ms ms1 ms2 ms3 : Nat) (s : State) : State :=
  if key ≠ '\x00' ∧ (isValidKeyPress key ms s).1 = true then
    let s := (isValidKeyPress key ms s).2
    if key = '#' then
      deleteLastDigit s
    else if key.isDigit = true ∧ s.pinPosition < 4 then
      let s := { s with
        enteredPin := fun i => if i = s.pinPosition then key else s.enteredPin i
        pinPosition := (s.pinPosition + 1) % 256 }
      if s.pinPosition = 4 then verifyPin ms1 ms2 ms3 s else s
    else s
  else s

/-! ## Lockout evaluation -/

/-- The local variable `elapsedTime` of `checkLockoutStatus`, as computed on
the path where attempts are exhausted. `ms1` is the function's own `millis()`
reading, `ms2` the reading of its call of `getRealTimeSeconds`. -/
def checkLockoutStatus.elapsedTime (ms1 ms2 : Nat) (s : State) : Nat :=
  let currentTime := ms1
  let lockoutRealTime := loadRealTimestamp s
  let currentRealTime := getRealTimeSeconds ms2 s
  if lockoutRealTime > 0 then
    let realElapsedSeconds := usub currentRealTime lockoutRealTime
    umul realElapsedSeconds 1000
  else if currentTime ≥ s.lockoutStartTime then
    usub currentTime s.lockoutStartTime
  else
    uadd (uadd (usub ULONG_MAX s.lockoutStartTime) currentTime) 1

/-- The function `checkLockoutStatus`. -/
def checkLockoutStatus (ms1 ms2 : Nat) (s : State) : State :=
  if s.failedAttempts ≥ MAX_ATTEMPTS ∧ s.lockoutStartTime > 0 then
    let elapsedTime := checkLockoutStatus.elapsedTime ms1 ms2 s
    if elapsedTime < LOCKOUT_DURATION then
      { s with systemLocked := true }
    else
      saveSecurityState { s with
        failedAttempts := 0
        lockoutStartTime := 0
        lockoutRealStartTime := 0
        systemLocked := false }
  else if s.failedAttempts < MAX_ATTEMPTS then
    { s with
      systemLocked := false
      lockoutStartTime := 0
      lockoutRealStartTime := 0 }
  else s

/-- The local variable `elapsedTime` of `handleLockoutScreen`. `ms1` is the
function's own `millis()` reading, `ms2` the reading of its call of
`getRealTimeSeconds`. -/
def handleLockoutScreen.elapsedTime (ms1 ms2 : Nat) (s : State) : Nat :=
  let currentTime := ms1
  let lockoutRealTime := loadRealTimestamp s
  let currentRealTime := getRealTimeSeconds ms2 s
  if lockoutRealTime > 0 then
    let realElapsedSeconds := usub currentRealTime lockoutRealTime
    umul realElapsedSeconds 1000
  else if currentTime ≥ s.lockoutStartTime then
    usub currentTime s.lockoutStartTime
  else
    uadd (uadd (usub ULONG_MAX s.lockoutStartTime) currentTime) 1

/-- The function `handleLockoutScreen` (the countdown it draws is output
only). -/
def handleLockoutScreen (ms1 ms2 : Nat) (s : State) : State :=
  let elapsedTime := handleLockoutScreen.elapsedTime ms1 ms2 s
  if elapsedTime ≥ LOCKOUT_DURATION then
    resetPinEntry (saveSecurityState { s with
      systemLocked := false
      failedAttempts := 0
      lockoutStartTime := 0
      lockoutRealStartTime := 0 })
  else s

/-! ## Boot -/

/-- The security-relevant part of `setup`: the relay is driven low, the boot
reference is taken (`msBoot`), the persisted state is loaded (`msLoad`), and
after the welcome delay the lockout is evaluated (`ms1`, `ms2`). -/
def setup (msBoot msLoad ms1 ms2 : Nat) (s : State) : State :=
  let s := { s with relay := false }
  let s := initializeRTC msBoot s
  let s := loadSecurityState msLoad s
  checkLockoutStatus ms1 ms2 s

/-- What one pass of `loop` reads from outside: the key `getKey()` returns
(the zero character for no key) with the `millis()` reading `ms` of
`isValidKeyPress` and the readings `ms1`, `ms2`, `ms3` of `verifyPin`, used on
the PIN screen, and the two readings `lock1`, `lock2` of `handleLockoutScreen`,
used while locked. -/
structure LoopInput where
  key : Char
  ms : Nat
  ms1 : Nat
  ms2 : Nat
  ms3 : Nat
  lock1 : Nat
  lock2 : Nat

/-- The security-relevant part of `loop`: the dispatch on `systemLocked` and
`authenticated`. `handleHomeScreen` only draws, and the telemetry refresh
that follows writes telemetry variables only. -/
def loop (x : LoopInput) (s : State) : State :=
  if s.systemLocked = true then
    handleLockoutScreen x.lock1 x.lock2 s
  else if s.authenticated = false then
    handlePinEntry x.key x.ms x.ms1 x.ms2 x.ms3 s
  else s

/-! ## Charge-direction detection -/

/-- The constant `CHARGE_DEBOUNCE`, in milliseconds. -/
abbrev CHARGE_DEBOUNCE : Nat := 1000

/-- The constant `CHARGING_CURRENT`, `-0.02`. -/
def CHARGING_CURRENT : ℚ := -2 / 100

/-- The constant `DISCHARGING_CURRENT`, `0.02`. -/
def DISCHARGING_CURRENT : ℚ := 2 / 100

/-- The constant `SHUNT_VOLTAGE_CHARGING`, `-0.01`. -/
def SHUNT_VOLTAGE_CHARGING : ℚ := -1 / 100

/-- The constant `SHUNT_VOLTAGE_DISCHARGING`, `0.01`. -/
def SHUNT_VOLTAGE_DISCHARGING : ℚ := 1 / 100

/-- The global variables of the charge-direction detection. -/
structure PowerState where
  isCharging : Bool
  wasCharging : Bool
  lastChargeChange : Nat

/-- The charge-direction part of `updatePowerData`. The raw readings
`shuntVoltage` and `current_A` are arguments (this revision of the sketch
assigns them the constants 20 and 10 in place of the sensor calls) and are
taken as exact numbers; `now` is the `millis()` reading. The voltage smoothing
and the battery percentage write other variables only. -/
def updatePowerData (shuntVoltage current_A : ℚ) (now : Nat) (p : PowerState) : PowerState :=
  let p := { p with wasCharging := p.isCharging }
  let newChargingState :=
    if current_A ≤ CHARGING_CURRENT ∨ shuntVoltage ≤ SHUNT_VOLTAGE_CHARGING then true
    else if current_A ≥ DISCHARGING_CURRENT ∨ shuntVoltage ≥ SHUNT_VOLTAGE_DISCHARGING then false
    else p.isCharging
  if newChargingState ≠ p.isCharging then
    if usub now p.lastChargeChange > CHARGE_DEBOUNCE then
      { p with isCharging := newChargingState, lastChargeChange := now }
    else p
  else { p with lastChargeChange := now }

/-! ## Power cycle -/

/-- A power cycle: every variable takes its initial value again and only the
committed content of the store is kept. -/
def reboot (s : State) : State := initialState s.EEPROM.flash

/-! ## Vocabulary of the statements -/

/-- The entered buffer holds the four characters of `CORRECT_PIN`. -/
def pinMatches (p : Nat → Char) : Prop :=
  p 0 = '1' ∧ p 1 = '9' ∧ p 2 = '1' ∧ p 3 = '1'

instance pinMatches.decidable (p : Nat → Char) : Decidable (pinMatches p) := by
  unfold pinMatches; infer_instance

/-- The elapsed time both lockout evaluations compute, within one session
without counter wraparound, for a lockout declared at tick `t0` by a boot at
tick `b`: whole seconds since boot now minus whole seconds since boot at the
lockout, times 1000, when the latter is not zero; the tick difference
otherwise. -/
def sessionElapsed (b t0 now : Nat) : Nat :=
  if 0 < (t0 - b) / 1000 then ((now - b) / 1000 - (t0 - b) / 1000) * 1000 else now - t0

/-- One PIN entry as the main loop performs it: the four keyed characters
`pin` fill the buffer and `verifyPin` runs, with its three `millis()`
readings. -/
structure Attempt where
  pin : Nat → Char
  ms1 : Nat
  ms2 : Nat
  ms3 : Nat

/-- One PIN entry made from the PIN screen. `loop` calls `handlePinEntry`,
and so `verifyPin`, only while the system is neither locked nor
authenticated; in any other state no call is made. -/
def attempt (s : State) (a : Attempt) : State :=
  if s.systemLocked = false ∧ s.authenticated = false then
    verifyPin a.ms1 a.ms2 a.ms3 { s with enteredPin := a.pin, pinPosition := 4 }
  else s

/-- The ways the program acts on the PIN buffer: a key event handled by
`handlePinEntry` (digits, the delete key, and the verification a fourth digit
triggers), and direct calls of `deleteLastDigit`, `verifyPin`,
`resetPinEntry` and `handleLockoutScreen` (which resets the buffer when a
lockout expires). -/
inductive PinOp where
  | key (k : Char) (ms ms1 ms2 ms3 : Nat)
  | delete
  | verify (ms1 ms2 ms3 : Nat)
  | reset
  | lockoutScreen (ms1 ms2 : Nat)

/-- The effect of a buffer operation on the variables. -/
def PinOp.apply (s : State) : PinOp → State
  | PinOp.key k ms ms1 ms2 ms3 => handlePinEntry k ms ms1 ms2 ms3 s
  | PinOp.delete => deleteLastDigit s
  | PinOp.verify ms1 ms2 ms3 => verifyPin ms1 ms2 ms3 s
  | PinOp.reset => resetPinEntry s
  | PinOp.lockoutScreen ms1 ms2 => handleLockoutScreen ms1 ms2 s

/-- One telemetry sample: the two raw readings and the `millis()` reading of
the `updatePowerData` call that takes it. -/
structure Sample where
  shuntVoltage : ℚ
  current_A : ℚ
  now : Nat

/-- One `updatePowerData` call on a sample, together with the tick of the last
accepted flip of `isCharging`, which the program itself does not store. -/
def sampleStep (st : PowerState × Nat) (x : Sample) : PowerState × Nat :=
  let q := updatePowerData x.shuntVoltage x.current_A x.now st.1
  (q, if q.isCharging ≠ st.1.isCharging then x.now else st.2)

/-- The ticks of a list of samples never go back: the first is at least `lo`
and each later one is at least the one before it. -/
def ticksFrom (lo : Nat) : List Sample → Prop
  | [] => True
  | x :: xs => lo ≤ x.now ∧ ticksFrom x.now xs

/-! ## Lemmas on machine arithmetic and the store -/

theorem usub_of_le {a b : Nat} (h : b ≤ a) (ha : a < 4294967296) : usub a b = a - b := by
  unfold usub; omega

theorem bytes_recompose (v : Nat) :
    v % 256 + 256 * (v / 256 % 256) + 65536 * (v / 65536 % 256)
      + 16777216 * (v / 16777216 % 256) = v % 4294967296 := by
  omega

theorem char_sub_ne_zero {a b : Char} (h : a ≠ b) : ((a.toNat : Int) - (b.toNat : Int)) ≠ 0 := by
  intro h0
  apply h
  have : a.toNat = b.toNat := by omega
  exact Char.ext (UInt32.ext (by simpa [Char.toNat, UInt32.toNat] using this))

theorem strncmp_correct_pin (p : Nat → Char) :
    strncmp p CORRECT_PIN 0 4 = 0 ↔ pinMatches p := by
  have c0 : CORRECT_PIN 0 = '1' := rfl
  have c1 : CORRECT_PIN 1 = '9' := rfl
  have c2 : CORRECT_PIN 2 = '1' := rfl
  have c3 : CORRECT_PIN 3 = '1' := rfl
  unfold pinMatches
  by_cases h0 : p 0 = '1'
  · by_cases h1 : p 1 = '9'
    · by_cases h2 : p 2 = '1'
      · by_cases h3 : p 3 = '1'
        · simp [strncmp, c0, c1, c2, c3, h0, h1, h2, h3]
        · have := char_sub_ne_zero h3
          simp [strncmp, c0, c1, c2, c3, h0, h1, h2, h3]
          simpa using this
      · have := char_sub_ne_zero h2
        simp [strncmp, c0, c1, c2, c3, h0, h1, h2]
        simpa using this
    · have := char_sub_ne_zero h1
      simp [strncmp, c0, c1, c2, c3, h0, h1]
      simpa using this
  · have := char_sub_ne_zero h0
    simp [strncmp, c0, c1, c2, c3, h0]
    simpa using this

theorem pinMatches_terminated (p : Nat → Char) :
    pinMatches (fun i => if i = 4 then '\x00' else p i) ↔ pinMatches p := by
  simp [pinMatches]

/-- What `verifyPin` does on a buffer that is not the correct PIN. -/
theorem verifyPin_of_wrong (ms1 ms2 ms3 : Nat) (s : State) (h : ¬ pinMatches s.enteredPin) :
    verifyPin ms1 ms2 ms3 s =
      let s := { s with enteredPin := fun i => if i = 4 then '\x00' else s.enteredPin i }
      let s := { s with failedAttempts := (s.failedAttempts + 1) % 256 }
      let s :=
        if s.failedAttempts ≥ MAX_ATTEMPTS then
          saveRealTimestamp ms3 { s with
            lockoutStartTime := ms1
            lockoutRealStartTime := getRealTimeSeconds ms2 s
            systemLocked := true }
        else s
      resetPinEntry (saveSecurityState s) := by
  have h2 : ¬ strncmp (fun i => if i = 4 then '\x00' else s.enteredPin i) CORRECT_PIN 0 4 = 0 := by
    rw [strncmp_correct_pin, pinMatches_terminated]; exact h
  simp only [verifyPin, h2, if_false]

/-- What `verifyPin` does on the correct PIN. -/
theorem verifyPin_of_correct (ms1 ms2 ms3 : Nat) (s : State) (h : pinMatches s.enteredPin) :
    verifyPin ms1 ms2 ms3 s =
      let s := { s with enteredPin := fun i => if i = 4 then '\x00' else s.enteredPin i }
      let s := saveSecurityState { s with
        authenticated := true
        failedAttempts := 0
        lockoutStartTime := 0
        lockoutRealStartTime := 0 }
      { s with relay := true } := by
  have h2 : strncmp (fun i => if i = 4 then '\x00' else s.enteredPin i) CORRECT_PIN 0 4 = 0 := by
    rw [strncmp_correct_pin, pinMatches_terminated]; exact h
  simp only [verifyPin, h2, if_true]

/-- The variables and the store after the `verifyPin` call that exhausts the
attempts. -/
theorem verifyPin_lockout_state (ms1 ms2 ms3 : Nat) (s : State)
    (hfa : s.failedAttempts = 4) (h : ¬ pinMatches s.enteredPin) :
    let s1 := verifyPin ms1 ms2 ms3 s
    s1.failedAttempts = 5 ∧ s1.lockoutStartTime = ms1 ∧ s1.systemLocked = true ∧
    s1.systemBootTime = s.systemBootTime ∧
    s1.lockoutRealStartTime = getRealTimeSeconds ms2 s ∧
    s1.EEPROM.get32 LOCKOUT_TIMESTAMP_ADDR = getRealTimeSeconds ms3 s % 4294967296 ∧
    s1.EEPROM.get32 BOOT_TIMESTAMP_ADDR = s.systemBootTime % 4294967296 ∧
    s1.EEPROM.get8 ATTEMPTS_ADDR = 5 ∧
    s1.EEPROM.get32 LOCKOUT_START_ADDR = ms1 % 4294967296 ∧
    s1.EEPROM.flash = s1.EEPROM.data := by
  rw [verifyPin_of_wrong ms1 ms2 ms3 s h]
  simp [hfa, saveRealTimestamp, saveSecurityState, resetPinEntry, getRealTimeSeconds,
    EEPROMClass.get32, EEPROMClass.get8, EEPROMClass.put32, EEPROMClass.put8,
    EEPROMClass.commit, ATTEMPTS_ADDR, LOCKOUT_START_ADDR, LOCKOUT_ACTIVE_ADDR,
    LOCKOUT_TIMESTAMP_ADDR, BOOT_TIMESTAMP_ADDR, bytes_recompose]

theorem loadRealTimestamp_session (s : State) (b t0 : Nat)
    (hts : s.EEPROM.get32 LOCKOUT_TIMESTAMP_ADDR = (t0 - b) / 1000)
    (hbt : s.EEPROM.get32 BOOT_TIMESTAMP_ADDR = b)
    (hb : b ≤ t0) (ht : t0 < 4294967296) :
    loadRealTimestamp s = (t0 - b) / 1000 := by
  simp only [loadRealTimestamp, hts, hbt, ULONG_MAX]
  split_ifs with h
  · omega
  · rfl

theorem elapsedTime_session (s : State) (b t0 now : Nat)
    (hst : s.lockoutStartTime = t0) (hboot : s.systemBootTime = b)
    (hts : s.EEPROM.get32 LOCKOUT_TIMESTAMP_ADDR = (t0 - b) / 1000)
    (hbt : s.EEPROM.get32 BOOT_TIMESTAMP_ADDR = b)
    (hb : b ≤ t0) (hnow : t0 ≤ now) (hlt : now < 4294967296) :
    checkLockoutStatus.elapsedTime now now s = sessionElapsed b t0 now ∧
    handleLockoutScreen.elapsedTime now now s = sessionElapsed b t0 now := by
  have hl := loadRealTimestamp_session s b t0 hts hbt hb (by omega)
  have hg : getRealTimeSeconds now s = (now - b) / 1000 := by
    simp only [getRealTimeSeconds, hboot]
    rw [usub_of_le (by omega) hlt]
  simp only [checkLockoutStatus.elapsedTime, handleLockoutScreen.elapsedTime, hl, hg, hst,
    sessionElapsed, usub, umul, uadd, ULONG_MAX]
  constructor <;> split_ifs <;> omega

theorem sessionElapsed_lt (b t0 now : Nat) (hb : b ≤ t0) (hnow : t0 ≤ now)
    (h : now - t0 + 1000 ≤ LOCKOUT_DURATION) : sessionElapsed b t0 now < LOCKOUT_DURATION := by
  unfold sessionElapsed LOCKOUT_DURATION at *
  split_ifs <;> omega

theorem sessionElapsed_ge (b t0 now : Nat) (hb : b ≤ t0) (hnow : t0 ≤ now)
    (h : LOCKOUT_DURATION ≤ now - t0) : LOCKOUT_DURATION ≤ sessionElapsed b t0 now := by
  unfold sessionElapsed LOCKOUT_DURATION at *
  split_ifs <;> omega

/-- C1 (as stated, refuted): a lockout declared at tick 5001 of a session
booted at tick 0 is released by `checkLockoutStatus` and by
`handleLockoutScreen` at tick 125000, only 119999 ms later. -/
theorem lockout_ends_early_counterexample :
    let s0 : State := { initialState (fun _ => 255) with failedAttempts := 4 }
    let s := verifyPin 5001 5001 5001 s0
    s.failedAttempts = MAX_ATTEMPTS ∧ s.lockoutStartTime = 5001 ∧ s.systemLocked = true ∧
    125000 - 5001 < LOCKOUT_DURATION ∧
    (checkLockoutStatus 125000 125000 s).systemLocked = false ∧
    (checkLockoutStatus 125000 125000 s).failedAttempts = 0 ∧
    (handleLockoutScreen 125000 125000 s).systemLocked = false := by
  decide

/-- C1 (amended): after the `verifyPin` call that exhausts the attempts at
tick `t0 > 0`, in a session without counter wraparound, the lockout evaluation
run at tick `now` (both `checkLockoutStatus` and `handleLockoutScreen`) leaves
the system locked with the attempts still exhausted exactly when the elapsed
time it computes, `sessionElapsed`, is below `LOCKOUT_DURATION`, and otherwise
unlocks with `failedAttempts = 0`. In particular the system stays locked
whenever `now - t0 ≤ LOCKOUT_DURATION - 1000` and is unlocked whenever
`now - t0 ≥ LOCKOUT_DURATION`. -/
theorem lockout_window (s0 : State) (t0 now : Nat)
    (hfa : s0.failedAttempts = 4) (hpin : ¬ pinMatches s0.enteredPin)
    (hboot : s0.systemBootTime ≤ t0) (ht0 : 0 < t0) (hnow : t0 ≤ now)
    (hlt : now < 4294967296) :
    let s := verifyPin t0 t0 t0 s0
    let c := checkLockoutStatus now now s
    let h := handleLockoutScreen now now s
    (s.failedAttempts = MAX_ATTEMPTS ∧ s.lockoutStartTime = t0 ∧ s.systemLocked = true) ∧
    (sessionElapsed s0.systemBootTime t0 now < LOCKOUT_DURATION →
      c.systemLocked = true ∧ c.failedAttempts = MAX_ATTEMPTS ∧
      h.systemLocked = true ∧ h.failedAttempts = MAX_ATTEMPTS) ∧
    (LOCKOUT_DURATION ≤ sessionElapsed s0.systemBootTime t0 now →
      c.systemLocked = false ∧ c.failedAttempts = 0 ∧
      h.systemLocked = false ∧ h.failedAttempts = 0) ∧
    checkLockoutStatus.elapsedTime now now s = sessionElapsed s0.systemBootTime t0 now ∧
    handleLockoutScreen.elapsedTime now now s = sessionElapsed s0.systemBootTime t0 now ∧
    (now - t0 + 1000 ≤ LOCKOUT_DURATION →
      sessionElapsed s0.systemBootTime t0 now < LOCKOUT_DURATION) ∧
    (LOCKOUT_DURATION ≤ now - t0 →
      LOCKOUT_DURATION ≤ sessionElapsed s0.systemBootTime t0 now) := by
  intro s c h
  obtain ⟨h1, h2, h3, h4, -, h6, h7, -, -, -⟩ := verifyPin_lockout_state t0 t0 t0 s0 hfa hpin
  have hts : s.EEPROM.get32 LOCKOUT_TIMESTAMP_ADDR = (t0 - s0.systemBootTime) / 1000 := by
    rw [h6]; simp only [getRealTimeSeconds]
    rw [usub_of_le hboot (by omega)]; omega
  have hbt : s.EEPROM.get32 BOOT_TIMESTAMP_ADDR = s0.systemBootTime := by
    rw [h7]; omega
  obtain ⟨e1, e2⟩ := elapsedTime_session s s0.systemBootTime t0 now h2 h4 hts hbt hboot hnow hlt
  have hc : s.failedAttempts ≥ MAX_ATTEMPTS ∧ s.lockoutStartTime > 0 := by
    rw [h1, h2]; exact ⟨le_refl _, ht0⟩
  refine ⟨⟨h1, h2, h3⟩, ?_, ?_, e1, e2, sessionElapsed_lt _ _ _ hboot hnow,
    sessionElapsed_ge _ _ _ hboot hnow⟩
  · intro hl
    have hl2 : ¬ (sessionElapsed s0.systemBootTime t0 now ≥ LOCKOUT_DURATION) := by omega
    simp only [c, h, checkLockoutStatus, handleLockoutScreen, hc, e1, e2, hl, hl2,
      and_self, if_true, if_false]
    exact ⟨trivial, h1, h3, h1⟩
  · intro hg
    have hg2 : ¬ (sessionElapsed s0.systemBootTime t0 now < LOCKOUT_DURATION) := by omega
    simp only [c, h, checkLockoutStatus, handleLockoutScreen, hc, e1, e2, hg, hg2,
      and_self, if_true, if_false, saveSecurityState, resetPinEntry]

/-- C1 (amended), at a concrete input: a lockout declared at tick 5000 is
still in force at tick 124999 and is released at tick 125000. -/
theorem lockout_window_witness :
    (checkLockoutStatus 124999 124999 (verifyPin 5000 5000 5000
      { initialState (fun _ => 255) with failedAttempts := 4 })).systemLocked = true ∧
    (checkLockoutStatus 125000 125000 (verifyPin 5000 5000 5000
      { initialState (fun _ => 255) with failedAttempts := 4 })).systemLocked = false :=
  ⟨((lockout_window { initialState (fun _ => 255) with failedAttempts := 4 } 5000 124999
      rfl (by decide) (by decide) (by decide) (by decide) (by decide)).2.1 (by decide)).1,
   ((lockout_window { initialState (fun _ => 255) with failedAttempts := 4 } 5000 125000
      rfl (by decide) (by decide) (by decide) (by decide) (by decide)).2.2.1 (by decide)).1⟩

/-- C2 (the code at the failing inputs): a lockout is declared and committed
at tick `t0` of a session booted at tick 0; the device is power-cycled and
boots again (boot reference at tick 50, load at tick 55, lockout evaluation at
tick 3060, well inside the lockout). For `t0 = 200000` `loadSecurityState`
discards the stored lockout as an impossible future value; for `t0 = 60000`
the seconds subtraction in `checkLockoutStatus` wraps below zero and the
lockout counts as expired. Either way the device comes up unlocked with
`failedAttempts = 0`. -/
theorem reboot_clears_lockout :
    (let s := verifyPin 200000 200000 200000
        { initialState (fun _ => 255) with failedAttempts := 4 }
     let r := setup 50 55 3060 3060 (reboot s)
     s.systemLocked = true ∧ s.failedAttempts = MAX_ATTEMPTS ∧
     s.EEPROM.flash8 ATTEMPTS_ADDR = 5 ∧ s.EEPROM.flash32 LOCKOUT_START_ADDR = 200000 ∧
     s.EEPROM.flash32 LOCKOUT_TIMESTAMP_ADDR = 200 ∧
     (loadSecurityState 55 (initializeRTC 50 (reboot s))).failedAttempts = 0 ∧
     r.systemLocked = false ∧ r.failedAttempts = 0) ∧
    (let s := verifyPin 60000 60000 60000
        { initialState (fun _ => 255) with failedAttempts := 4 }
     let r := setup 50 55 3060 3060 (reboot s)
     s.systemLocked = true ∧ s.failedAttempts = MAX_ATTEMPTS ∧
     s.EEPROM.flash8 ATTEMPTS_ADDR = 5 ∧ s.EEPROM.flash32 LOCKOUT_START_ADDR = 60000 ∧
     s.EEPROM.flash32 LOCKOUT_TIMESTAMP_ADDR = 60 ∧
     (loadSecurityState 55 (initializeRTC 50 (reboot s))).failedAttempts = MAX_ATTEMPTS ∧
     checkLockoutStatus.elapsedTime 3060 3060
       (loadSecurityState 55 (initializeRTC 50 (reboot s))) = 4294910296 ∧
     r.systemLocked = false ∧ r.failedAttempts = 0) := by
  decide

/-! ## Wrong entries: the attempt counter -/

/-- One wrong entry from the PIN screen with fewer than `MAX_ATTEMPTS`
failures so far: the counter goes up by one, and the system is locked
afterwards exactly when the counter reached `MAX_ATTEMPTS`. -/
theorem attempt_wrong_step (s : State) (a : Attempt) (hw : ¬ pinMatches a.pin)
    (hl : s.systemLocked = false) (ha : s.authenticated = false)
    (hfa : s.failedAttempts < MAX_ATTEMPTS) :
    (attempt s a).failedAttempts = s.failedAttempts + 1 ∧
    (attempt s a).authenticated = false ∧
    ((attempt s a).systemLocked = true ↔ s.failedAttempts + 1 = MAX_ATTEMPTS) := by
  have hm : (s.failedAttempts + 1) % 256 = s.failedAttempts + 1 := by
    unfold MAX_ATTEMPTS at hfa; omega
  simp only [attempt, hl, ha, and_self, if_true]
  rw [verifyPin_of_wrong _ _ _ _ hw]
  by_cases h5 : s.failedAttempts = 4
  · simp [h5, hl, ha, MAX_ATTEMPTS, saveRealTimestamp, saveSecurityState, resetPinEntry]
  · have h6 : ¬ (5 ≤ s.failedAttempts + 1) := by unfold MAX_ATTEMPTS at hfa; omega
    simp [hm, h5, h6, hl, ha, MAX_ATTEMPTS, saveSecurityState, resetPinEntry]

/-- The invariant of the PIN screen: the counter is at most `MAX_ATTEMPTS`,
nobody is authenticated, and the system is locked once the counter is at
`MAX_ATTEMPTS`. -/
theorem attempts_invariant (as : List Attempt) (hw : ∀ a ∈ as, ¬ pinMatches a.pin) :
    ∀ s : State, s.authenticated = false → s.failedAttempts ≤ MAX_ATTEMPTS →
      (s.failedAttempts = MAX_ATTEMPTS → s.systemLocked = true) →
      (as.foldl attempt s).authenticated = false ∧
      s.failedAttempts ≤ (as.foldl attempt s).failedAttempts ∧
      (as.foldl attempt s).failedAttempts ≤ MAX_ATTEMPTS ∧
      ((as.foldl attempt s).failedAttempts = MAX_ATTEMPTS →
        (as.foldl attempt s).systemLocked = true) := by
  induction as with
  | nil => intro s ha hle hlock; exact ⟨ha, le_refl _, hle, hlock⟩
  | cons a as ih =>
    intro s ha hle hlock
    have hwa : ¬ pinMatches a.pin := hw a (List.mem_cons_self a as)
    have hwas : ∀ b ∈ as, ¬ pinMatches b.pin := fun b hb => hw b (List.mem_cons_of_mem a hb)
    rw [List.foldl_cons]
    by_cases hl : s.systemLocked = true
    · have hs : attempt s a = s := by simp [attempt, hl]
      rw [hs]; exact ih hwas s ha hle hlock
    · have hl2 : s.systemLocked = false := by simpa using hl
      have hlt : s.failedAttempts < MAX_ATTEMPTS := by
        rcases Nat.lt_or_ge s.failedAttempts MAX_ATTEMPTS with h | h
        · exact h
        · exact absurd (hlock (le_antisymm hle h)) hl
      obtain ⟨h1, h2, h3⟩ := attempt_wrong_step s a hwa hl2 ha hlt
      have := ih hwas (attempt s a) h2 (by rw [h1]; exact hlt) (by rw [h1]; exact h3.mpr)
      refine ⟨this.1, ?_, this.2.2.1, this.2.2.2⟩
      have := this.2.1
      rw [h1] at this
      omega

/-- C3 (as stated, refuted): from the PIN screen with `failedAttempts =
MAX_ATTEMPTS` (the state `setup` produces from a store holding five attempts
and no lockout start), one wrong entry leaves `failedAttempts = 6`. -/
theorem attempts_exceed_max_counterexample :
    let s := setup 50 55 3060 3060
      (initialState (fun i => if i = 0 then 5 else 0))
    s.systemLocked = false ∧ s.authenticated = false ∧ s.failedAttempts = MAX_ATTEMPTS ∧
    (attempt s { pin := fun _ => '0', ms1 := 9000, ms2 := 9000, ms3 := 9000 }).failedAttempts
      = MAX_ATTEMPTS + 1 := by
  decide

/-- C3 (amended): start on the PIN screen with fewer than `MAX_ATTEMPTS`
failures. After any sequence `as` of wrong entries, a further wrong entry `a`
does not decrease `failedAttempts`, leaves it at most `MAX_ATTEMPTS`, and if
it leaves it at `MAX_ATTEMPTS` the system is locked when the call returns. -/
theorem attempts_monotone_bounded (s : State) (as : List Attempt) (a : Attempt)
    (ha : s.authenticated = false)
    (hfa : s.failedAttempts < MAX_ATTEMPTS)
    (hw : ∀ b ∈ as, ¬ pinMatches b.pin) (hwa : ¬ pinMatches a.pin) :
    let pre := as.foldl attempt s
    let post := attempt pre a
    s.failedAttempts ≤ pre.failedAttempts ∧
    pre.failedAttempts ≤ post.failedAttempts ∧
    post.failedAttempts ≤ MAX_ATTEMPTS ∧
    (post.failedAttempts = MAX_ATTEMPTS → post.systemLocked = true) := by
  intro pre post
  have hlock : s.failedAttempts = MAX_ATTEMPTS → s.systemLocked = true := by
    intro h; omega
  have hpre := attempts_invariant as hw s ha (le_of_lt hfa) hlock
  have hpost := attempts_invariant [a] (by simpa using hwa) pre hpre.1 hpre.2.2.1 hpre.2.2.2
  simp only [List.foldl_cons, List.foldl_nil] at hpost
  exact ⟨hpre.2.1, hpost.2.1, hpost.2.2.1, hpost.2.2.2⟩

/-- C3 (amended), at a concrete input: the fifth of five wrong entries from a
clean state locks the system with `failedAttempts = MAX_ATTEMPTS`. -/
theorem attempts_monotone_bounded_witness :
    let w : Attempt := { pin := fun _ => '0', ms1 := 9000, ms2 := 9000, ms3 := 9000 }
    let pre := [w, w, w, w].foldl attempt (initialState (fun _ => 255))
    pre.failedAttempts = 4 ∧ (attempt pre w).failedAttempts ≤ MAX_ATTEMPTS ∧
    (attempt pre w).systemLocked = true :=
  have h := attempts_monotone_bounded (initialState (fun _ => 255))
    [{ pin := fun _ => '0', ms1 := 9000, ms2 := 9000, ms3 := 9000 },
     { pin := fun _ => '0', ms1 := 9000, ms2 := 9000, ms3 := 9000 },
     { pin := fun _ => '0', ms1 := 9000, ms2 := 9000, ms3 := 9000 },
     { pin := fun _ => '0', ms1 := 9000, ms2 := 9000, ms3 := 9000 }]
    { pin := fun _ => '0', ms1 := 9000, ms2 := 9000, ms3 := 9000 }
    rfl (by decide) (by decide) (by decide)
  ⟨by decide, h.2.2.1, h.2.2.2 (by decide)⟩

/-! ## Verification outcomes -/

theorem verifyPin_wrong_keeps (ms1 ms2 ms3 : Nat) (s : State) (h : ¬ pinMatches s.enteredPin) :
    (verifyPin ms1 ms2 ms3 s).authenticated = s.authenticated ∧
    (verifyPin ms1 ms2 ms3 s).relay = s.relay := by
  rw [verifyPin_of_wrong ms1 ms2 ms3 s h]
  simp only [resetPinEntry, saveSecurityState, saveRealTimestamp]
  split_ifs <;> exact ⟨rfl, rfl⟩

/-- C4: `verifyPin` on a buffer holding the correct PIN sets `authenticated`,
drives the relay high, zeroes `failedAttempts` and both lockout markers, and
leaves `failedAttempts = 0` and `lockoutStartTime = 0` in the store, working
copy and committed content alike. On any other buffer `authenticated` and the
relay keep their values, so from the PIN screen, where both are off, they stay
off. -/
theorem verifyPin_outcome (ms1 ms2 ms3 : Nat) (s : State) :
    (pinMatches s.enteredPin →
      (verifyPin ms1 ms2 ms3 s).authenticated = true ∧
      (verifyPin ms1 ms2 ms3 s).relay = true ∧
      (verifyPin ms1 ms2 ms3 s).failedAttempts = 0 ∧
      (verifyPin ms1 ms2 ms3 s).lockoutStartTime = 0 ∧
      (verifyPin ms1 ms2 ms3 s).lockoutRealStartTime = 0 ∧
      (verifyPin ms1 ms2 ms3 s).EEPROM.get8 ATTEMPTS_ADDR = 0 ∧
      (verifyPin ms1 ms2 ms3 s).EEPROM.get32 LOCKOUT_START_ADDR = 0 ∧
      (verifyPin ms1 ms2 ms3 s).EEPROM.flash8 ATTEMPTS_ADDR = 0 ∧
      (verifyPin ms1 ms2 ms3 s).EEPROM.flash32 LOCKOUT_START_ADDR = 0) ∧
    (¬ pinMatches s.enteredPin →
      (verifyPin ms1 ms2 ms3 s).authenticated = s.authenticated ∧
      (verifyPin ms1 ms2 ms3 s).relay = s.relay ∧
      (s.authenticated = false → s.relay = false →
        (verifyPin ms1 ms2 ms3 s).authenticated = false ∧
        (verifyPin ms1 ms2 ms3 s).relay = false)) := by
  constructor
  · intro h
    rw [verifyPin_of_correct ms1 ms2 ms3 s h]
    simp [saveSecurityState, EEPROMClass.get32, EEPROMClass.get8, EEPROMClass.put32,
      EEPROMClass.put8, EEPROMClass.commit, EEPROMClass.flash8, EEPROMClass.flash32,
      ATTEMPTS_ADDR, LOCKOUT_START_ADDR, LOCKOUT_ACTIVE_ADDR]
  · intro h
    obtain ⟨h1, h2⟩ := verifyPin_wrong_keeps ms1 ms2 ms3 s h
    refine ⟨h1, h2, fun ha hr => ?_⟩
    rw [h1, h2]
    exact ⟨ha, hr⟩

/-- C4, at concrete inputs: the correct PIN from a fresh state switches the
relay on; the buffer "1912" leaves it off. -/
theorem verifyPin_outcome_witness :
    (verifyPin 9000 9000 9000
      { initialState (fun _ => 255) with enteredPin := CORRECT_PIN }).relay = true ∧
    (verifyPin 9000 9000 9000
      { initialState (fun _ => 255) with
        enteredPin := fun i => if i = 3 then '2' else CORRECT_PIN i }).relay = false :=
  ⟨((verifyPin_outcome 9000 9000 9000
      { initialState (fun _ => 255) with enteredPin := CORRECT_PIN }).1 (by decide)).2.1,
   (((verifyPin_outcome 9000 9000 9000
      { initialState (fun _ => 255) with
        enteredPin := fun i => if i = 3 then '2' else CORRECT_PIN i }).2 (by decide)).2.2
      rfl rfl).2⟩

theorem getRealTimeSeconds_lt (ms : Nat) (s : State) :
    getRealTimeSeconds ms s < 4294967296 := by
  unfold getRealTimeSeconds usub; omega

/-- The variables and the store after a wrong entry that does not exhaust the
attempts. -/
theorem attempt_wrong_below (s : State) (a : Attempt) (hw : ¬ pinMatches a.pin)
    (hl : s.systemLocked = false) (ha : s.authenticated = false)
    (hfa : s.failedAttempts + 1 < MAX_ATTEMPTS) :
    (attempt s a).failedAttempts = s.failedAttempts + 1 ∧
    (attempt s a).systemLocked = false ∧ (attempt s a).authenticated = false ∧
    (attempt s a).lockoutStartTime = s.lockoutStartTime ∧
    (attempt s a).lockoutRealStartTime = s.lockoutRealStartTime ∧
    (attempt s a).systemBootTime = s.systemBootTime := by
  have hm : (s.failedAttempts + 1) % 256 = s.failedAttempts + 1 := by
    unfold MAX_ATTEMPTS at hfa; omega
  have h6 : ¬ (5 ≤ s.failedAttempts + 1) := by unfold MAX_ATTEMPTS at hfa; omega
  simp only [attempt, hl, ha, and_self, if_true]
  rw [verifyPin_of_wrong _ _ _ _ hw]
  simp [hm, h6, hl, ha, MAX_ATTEMPTS, saveSecurityState, resetPinEntry]

/-- C5: from a clean state on the PIN screen, five wrong entries leave the
system unlocked with `failedAttempts = 1, 2, 3, 4` and no lockout start after
the first four, and locked after the fifth, with `lockoutStartTime` the
`millis()` reading of the fifth call, `lockoutRealStartTime` the seconds since
boot read in that call, and the committed store holding the attempt count, the
lockout start and the seconds-since-boot record that `saveRealTimestamp` read
in that call. -/
theorem five_wrong_entries (s0 : State) (a1 a2 a3 a4 a5 : Attempt)
    (hfa : s0.failedAttempts = 0) (hl : s0.systemLocked = false)
    (ha : s0.authenticated = false) (hst : s0.lockoutStartTime = 0)
    (hw1 : ¬ pinMatches a1.pin) (hw2 : ¬ pinMatches a2.pin) (hw3 : ¬ pinMatches a3.pin)
    (hw4 : ¬ pinMatches a4.pin) (hw5 : ¬ pinMatches a5.pin)
    (hms : a5.ms1 < 4294967296) :
    let s1 := attempt s0 a1
    let s2 := attempt s1 a2
    let s3 := attempt s2 a3
    let s4 := attempt s3 a4
    let s5 := attempt s4 a5
    (s1.failedAttempts = 1 ∧ s1.systemLocked = false ∧ s1.lockoutStartTime = 0) ∧
    (s2.failedAttempts = 2 ∧ s2.systemLocked = false ∧ s2.lockoutStartTime = 0) ∧
    (s3.failedAttempts = 3 ∧ s3.systemLocked = false ∧ s3.lockoutStartTime = 0) ∧
    (s4.failedAttempts = 4 ∧ s4.systemLocked = false ∧ s4.lockoutStartTime = 0) ∧
    s5.failedAttempts = MAX_ATTEMPTS ∧ s5.systemLocked = true ∧
    s5.lockoutStartTime = a5.ms1 ∧
    s5.lockoutRealStartTime = getRealTimeSeconds a5.ms2 s0 ∧
    s5.EEPROM.flash8 ATTEMPTS_ADDR = MAX_ATTEMPTS ∧
    s5.EEPROM.flash32 LOCKOUT_START_ADDR = a5.ms1 ∧
    s5.EEPROM.flash32 LOCKOUT_TIMESTAMP_ADDR = getRealTimeSeconds a5.ms3 s0 := by
  intro s1 s2 s3 s4 s5
  obtain ⟨f1, l1, u1, t1, -, b1⟩ := attempt_wrong_below s0 a1 hw1 hl ha (by rw [hfa]; decide)
  rw [hfa] at f1; rw [hst] at t1
  obtain ⟨f2, l2, u2, t2, -, b2⟩ :=
    attempt_wrong_below (attempt s0 a1) a2 hw2 l1 u1 (by rw [f1]; decide)
  rw [f1] at f2; rw [t1] at t2
  obtain ⟨f3, l3, u3, t3, -, b3⟩ :=
    attempt_wrong_below (attempt (attempt s0 a1) a2) a3 hw3 l2 u2 (by rw [f2]; decide)
  rw [f2] at f3; rw [t2] at t3
  obtain ⟨f4, l4, u4, t4, -, b4⟩ :=
    attempt_wrong_below (attempt (attempt (attempt s0 a1) a2) a3) a4 hw4 l3 u3
      (by rw [f3]; decide)
  rw [f3] at f4; rw [t3] at t4
  have hb : s4.systemBootTime = s0.systemBootTime := by
    simp only [s4, s3, s2, s1, b4, b3, b2, b1]
  have hg : ∀ ms, getRealTimeSeconds ms { s4 with enteredPin := a5.pin, pinPosition := 4 }
      = getRealTimeSeconds ms s0 := by
    intro ms; simp only [getRealTimeSeconds, hb]
  obtain ⟨g1, g2, g3, -, g5, g6, -, g8, g9, g10⟩ :=
    verifyPin_lockout_state a5.ms1 a5.ms2 a5.ms3
      { s4 with enteredPin := a5.pin, pinPosition := 4 } f4 hw5
  have l4' : s4.systemLocked = false := l4
  have u4' : s4.authenticated = false := u4
  have hs5 : s5 = verifyPin a5.ms1 a5.ms2 a5.ms3
      { s4 with enteredPin := a5.pin, pinPosition := 4 } := by
    simp only [s5, attempt, l4', u4', and_self, if_true]
  rw [← hs5] at g1 g2 g3 g5 g6 g8 g9 g10
  rw [hg] at g5 g6
  have e8 : s5.EEPROM.flash8 ATTEMPTS_ADDR = s5.EEPROM.get8 ATTEMPTS_ADDR := by
    simp only [EEPROMClass.flash8, EEPROMClass.get8, g10]
  have e32 : ∀ a, s5.EEPROM.flash32 a = s5.EEPROM.get32 a := by
    intro a
    simp only [EEPROMClass.flash32, EEPROMClass.get32, EEPROMClass.flash8, EEPROMClass.get8, g10]
  refine ⟨⟨f1, l1, t1⟩, ⟨f2, l2, t2⟩, ⟨f3, l3, t3⟩, ⟨f4, l4, t4⟩, g1, g3, g2, g5, ?_, ?_, ?_⟩
  · rw [e8, g8]
  · rw [e32, g9]; omega
  · rw [e32, g6]; exact Nat.mod_eq_of_lt (getRealTimeSeconds_lt _ _)

/-- C5, at a concrete input: five times "0000" from a fresh state, the fifth
at tick 9000, locks the system with the lockout start 9000 committed. -/
theorem five_wrong_entries_witness :
    let w : Attempt := { pin := fun _ => '0', ms1 := 9000, ms2 := 9000, ms3 := 9000 }
    let s5 := [w, w, w, w, w].foldl attempt (initialState (fun _ => 255))
    s5.systemLocked = true ∧ s5.EEPROM.flash32 LOCKOUT_START_ADDR = 9000 :=
  have h := five_wrong_entries (initialState (fun _ => 255))
    { pin := fun _ => '0', ms1 := 9000, ms2 := 9000, ms3 := 9000 }
    { pin := fun _ => '0', ms1 := 9000, ms2 := 9000, ms3 := 9000 }
    { pin := fun _ => '0', ms1 := 9000, ms2 := 9000, ms3 := 9000 }
    { pin := fun _ => '0', ms1 := 9000, ms2 := 9000, ms3 := 9000 }
    { pin := fun _ => '0', ms1 := 9000, ms2 := 9000, ms3 := 9000 }
    rfl rfl rfl rfl (by decide) (by decide) (by decide) (by decide) (by decide) (by decide)
  ⟨h.2.2.2.2.2.1, h.2.2.2.2.2.2.2.2.2.1⟩

/-! ## Loading the persisted state -/

theorem get8_lt (e : EEPROMClass) (a : Nat) : e.get8 a < 256 := by
  unfold EEPROMClass.get8; omega

theorem get32_lt (e : EEPROMClass) (a : Nat) : e.get32 a < 4294967296 := by
  have h0 := get8_lt e a
  have h1 := get8_lt e (a + 1)
  have h2 := get8_lt e (a + 2)
  have h3 := get8_lt e (a + 3)
  unfold EEPROMClass.get32; omega

/-- C6: whatever else the store holds and whatever the tick, a stored attempt
count of 255 or above `MAX_ATTEMPTS` loads as `failedAttempts = 0`; a stored
count of at most `MAX_ATTEMPTS` next to a lockout start that the load does not
reject loads unchanged. -/
theorem load_failedAttempts (ms : Nat) (s : State) :
    (s.EEPROM.get8 ATTEMPTS_ADDR = 255 ∨ s.EEPROM.get8 ATTEMPTS_ADDR > MAX_ATTEMPTS →
      (loadSecurityState ms s).failedAttempts = 0) ∧
    (s.EEPROM.get8 ATTEMPTS_ADDR ≤ MAX_ATTEMPTS →
      ¬ (s.EEPROM.get32 LOCKOUT_START_ADDR > uadd ms LOCKOUT_DURATION ∨
          s.EEPROM.get32 LOCKOUT_START_ADDR = ULONG_MAX) →
      (loadSecurityState ms s).failedAttempts = s.EEPROM.get8 ATTEMPTS_ADDR) := by
  constructor
  · intro h
    have h2 : s.EEPROM.get8 ATTEMPTS_ADDR > MAX_ATTEMPTS ∨ s.EEPROM.get8 ATTEMPTS_ADDR = 255 := by
      rcases h with h | h
      · exact Or.inr h
      · exact Or.inl h
    simp only [loadSecurityState, h2, if_true]
    split_ifs <;> rfl
  · intro h hst
    have h2 : ¬ (s.EEPROM.get8 ATTEMPTS_ADDR > MAX_ATTEMPTS ∨ s.EEPROM.get8 ATTEMPTS_ADDR = 255) := by
      unfold MAX_ATTEMPTS at *; omega
    simp only [loadSecurityState, h2, hst, if_false]

/-- C6, at concrete inputs: an erased store (every byte 255) loads as
`failedAttempts = 0`, and a store holding three attempts and no lockout start
loads as `failedAttempts = 3`. -/
theorem load_failedAttempts_witness :
    (loadSecurityState 55 (initialState (fun _ => 255))).failedAttempts = 0 ∧
    (loadSecurityState 55 (initialState (fun i => if i = 0 then 3 else 0))).failedAttempts = 3 :=
  ⟨(load_failedAttempts 55 (initialState (fun _ => 255))).1 (by decide),
   (load_failedAttempts 55 (initialState (fun i => if i = 0 then 3 else 0))).2
     (by decide) (by decide)⟩

/-- C7 (as stated, refuted): the lockout start 200000 that `verifyPin` wrote
when it declared a lockout is not kept by the load of the next boot (tick 55):
it is more than `LOCKOUT_DURATION` past that tick, and the load resets it and
the attempt count to 0. -/
theorem load_drops_written_lockout_counterexample :
    let s := verifyPin 200000 200000 200000
      { initialState (fun _ => 255) with failedAttempts := 4 }
    s.EEPROM.flash32 LOCKOUT_START_ADDR = 200000 ∧
    (loadSecurityState 55 (reboot s)).lockoutStartTime = 0 ∧
    (loadSecurityState 55 (reboot s)).failedAttempts = 0 := by
  decide

/-- C7 (amended): a stored lockout start greater than `now + LOCKOUT_DURATION`
makes `loadSecurityState` set both `lockoutStartTime` and `failedAttempts` to
0. The load rejects the stored value exactly when it is above
`now + LOCKOUT_DURATION` reduced modulo `2^32`, or is `0xFFFFFFFF`; every other
stored value is kept as `lockoutStartTime`. -/
theorem load_lockoutStart (ms : Nat) (s : State) :
    (s.EEPROM.get32 LOCKOUT_START_ADDR > ms + LOCKOUT_DURATION →
      (loadSecurityState ms s).lockoutStartTime = 0 ∧
      (loadSecurityState ms s).failedAttempts = 0) ∧
    (s.EEPROM.get32 LOCKOUT_START_ADDR > uadd ms LOCKOUT_DURATION ∨
        s.EEPROM.get32 LOCKOUT_START_ADDR = ULONG_MAX →
      (loadSecurityState ms s).lockoutStartTime = 0 ∧
      (loadSecurityState ms s).failedAttempts = 0) ∧
    (¬ (s.EEPROM.get32 LOCKOUT_START_ADDR > uadd ms LOCKOUT_DURATION ∨
        s.EEPROM.get32 LOCKOUT_START_ADDR = ULONG_MAX) →
      (loadSecurityState ms s).lockoutStartTime = s.EEPROM.get32 LOCKOUT_START_ADDR) ∧
    (ms + LOCKOUT_DURATION < 4294967296 → uadd ms LOCKOUT_DURATION = ms + LOCKOUT_DURATION) := by
  have key : s.EEPROM.get32 LOCKOUT_START_ADDR > uadd ms LOCKOUT_DURATION ∨
        s.EEPROM.get32 LOCKOUT_START_ADDR = ULONG_MAX →
      (loadSecurityState ms s).lockoutStartTime = 0 ∧
      (loadSecurityState ms s).failedAttempts = 0 := by
    intro h
    simp only [loadSecurityState]
    split_ifs <;> simp_all
  refine ⟨fun h => key (Or.inl ?_), key, fun h => ?_, fun h => ?_⟩
  · have := get32_lt s.EEPROM LOCKOUT_START_ADDR
    unfold uadd; omega
  · simp only [loadSecurityState]
    split_ifs <;> simp_all
  · unfold uadd; omega

/-- C7 (amended), at concrete inputs: at tick 55 a stored lockout start of
200000 is reset to 0, one of 60000 is kept. -/
theorem load_lockoutStart_witness :
    (loadSecurityState 55 (initialState
      (fun i => if i = 4 then 64 else if i = 5 then 13 else if i = 6 then 3 else 0))).lockoutStartTime
      = 0 ∧
    (loadSecurityState 55 (initialState
      (fun i => if i = 4 then 96 else if i = 5 then 234 else 0))).lockoutStartTime = 60000 :=
  ⟨((load_lockoutStart 55 (initialState
      (fun i => if i = 4 then 64 else if i = 5 then 13 else if i = 6 then 3 else 0))).1
      (by decide)).1,
   (load_lockoutStart 55 (initialState
      (fun i => if i = 4 then 96 else if i = 5 then 234 else 0))).2.2.1 (by decide)⟩

/-! ## The lockout evaluation -/

/-- C8: running `checkLockoutStatus` a second time with the same `millis()`
readings changes nothing: the variables and the store, working copy and
committed content, are those the first run left. -/
theorem checkLockoutStatus_idempotent (ms1 ms2 : Nat) (s : State) :
    checkLockoutStatus ms1 ms2 (checkLockoutStatus ms1 ms2 s) = checkLockoutStatus ms1 ms2 s := by
  by_cases hc : s.failedAttempts ≥ MAX_ATTEMPTS ∧ s.lockoutStartTime > 0
  · by_cases he : checkLockoutStatus.elapsedTime ms1 ms2 s < LOCKOUT_DURATION
    · have h1 : checkLockoutStatus ms1 ms2 s = { s with systemLocked := true } := by
        simp only [checkLockoutStatus, hc, he, and_self, if_true]
      have he2 : checkLockoutStatus.elapsedTime ms1 ms2 { s with systemLocked := true }
          < LOCKOUT_DURATION := he
      rw [h1]
      simp only [checkLockoutStatus, hc, he2, and_self, if_true]
    · have h1 : checkLockoutStatus ms1 ms2 s = saveSecurityState { s with
          failedAttempts := 0
          lockoutStartTime := 0
          lockoutRealStartTime := 0
          systemLocked := false } := by
        simp only [checkLockoutStatus, hc, he, and_self, if_true, if_false]
      rw [h1]
      simp [checkLockoutStatus, saveSecurityState]
  · by_cases hlt : s.failedAttempts < MAX_ATTEMPTS
    · have h1 : checkLockoutStatus ms1 ms2 s = { s with
          systemLocked := false
          lockoutStartTime := 0
          lockoutRealStartTime := 0 } := by
        simp only [checkLockoutStatus, hc, hlt, if_true, if_false]
      rw [h1]
      have hlt2 : ¬ (s.failedAttempts ≥ MAX_ATTEMPTS) := by omega
      simp [checkLockoutStatus, hlt, hlt2]
    · have h1 : checkLockoutStatus ms1 ms2 s = s := by
        simp only [checkLockoutStatus, hc, hlt, if_false]
      rw [h1, h1]

theorem usub_cast (a b : Nat) :
    ((usub a b : Nat) : Int) = ((a : Int) - (b : Int)) % 4294967296 := by
  unfold usub; omega

/-- C9: with no real-elapsed record in the store (`loadRealTimestamp` gives
0), the elapsed time of both lockout evaluations is the tick difference
`now - lockoutStartTime` modulo `2^32`, for all 32-bit values of the two: the
plain difference when `now ≥ lockoutStartTime`, and
`(0xFFFFFFFF - lockoutStartTime) + now + 1` past a wraparound; it is a 32-bit
value. -/
theorem elapsed_fallback_wraparound (ms1 ms2 : Nat) (s : State)
    (hrec : loadRealTimestamp s = 0)
    (hs : s.lockoutStartTime < 4294967296) (hn : ms1 < 4294967296) :
    ((checkLockoutStatus.elapsedTime ms1 ms2 s : Nat) : Int)
      = ((ms1 : Int) - (s.lockoutStartTime : Int)) % 4294967296 ∧
    handleLockoutScreen.elapsedTime ms1 ms2 s = checkLockoutStatus.elapsedTime ms1 ms2 s ∧
    (s.lockoutStartTime ≤ ms1 →
      checkLockoutStatus.elapsedTime ms1 ms2 s = ms1 - s.lockoutStartTime) ∧
    (ms1 < s.lockoutStartTime →
      checkLockoutStatus.elapsedTime ms1 ms2 s = (ULONG_MAX - s.lockoutStartTime) + ms1 + 1) ∧
    checkLockoutStatus.elapsedTime ms1 ms2 s < 4294967296 := by
  simp only [checkLockoutStatus.elapsedTime, handleLockoutScreen.elapsedTime, hrec,
    usub, uadd, ULONG_MAX]
  refine ⟨?_, trivial, ?_, ?_, ?_⟩ <;> split_ifs <;> omega

/-- C9, at a concrete input: a lockout started at tick `0xFFFFFFFF - 99` and
evaluated at tick 50, just past the wraparound, has run for 150 ms. -/
theorem elapsed_fallback_wraparound_witness :
    checkLockoutStatus.elapsedTime 50 50
      { initialState (fun _ => 255) with lockoutStartTime := 4294967196 } = 150 :=
  ((elapsed_fallback_wraparound 50 50
      { initialState (fun _ => 255) with lockoutStartTime := 4294967196 }
      (by decide) (by decide) (by decide)).2.2.2.1 (by decide)).trans (by decide)

/-! ## Key debounce -/

/-- C10: `isValidKeyPress` accepts a key exactly when the tick difference to
the last accepted key (modulo `2^32`) is at least `KEY_DEBOUNCE_TIME` and,
for the same key as the last accepted one, at least `2 * KEY_DEBOUNCE_TIME`.
An accepted key and its tick become the debounce record and nothing else
changes; a rejected key changes nothing at all. -/
theorem isValidKeyPress_contract (key : Char) (ms : Nat) (s : State) :
    ((usub ms s.lastKeyPressTime : Nat) : Int)
      = ((ms : Int) - (s.lastKeyPressTime : Int)) % 4294967296 ∧
    ((isValidKeyPress key ms s).1 = true ↔
      (KEY_DEBOUNCE_TIME ≤ usub ms s.lastKeyPressTime ∧
        (key = s.lastKey → 2 * KEY_DEBOUNCE_TIME ≤ usub ms s.lastKeyPressTime))) ∧
    ((isValidKeyPress key ms s).1 = true →
      (isValidKeyPress key ms s).2 = { s with lastKeyPressTime := ms, lastKey := key }) ∧
    ((isValidKeyPress key ms s).1 = false → (isValidKeyPress key ms s).2 = s) := by
  refine ⟨usub_cast _ _, ?_, ?_, ?_⟩
  · simp only [isValidKeyPress, KEY_DEBOUNCE_TIME]
    split_ifs with h1 h2
    · simp; omega
    · simp; intro _; exact ⟨h2.1, by omega⟩
    · simp
      refine ⟨by omega, fun hk => ?_⟩
      have : ¬ (usub ms s.lastKeyPressTime < 200 * 2) := fun h => h2 ⟨hk, h⟩
      omega
  · simp only [isValidKeyPress]
    split_ifs <;> simp
  · simp only [isValidKeyPress]
    split_ifs <;> simp

/-- C10, at concrete inputs: after key '5' at tick 1000, key '5' is rejected
at tick 1399 and accepted at tick 1400, and key '6' is accepted at tick
1200. -/
theorem isValidKeyPress_contract_witness :
    (isValidKeyPress '5' 1399
      { initialState (fun _ => 255) with lastKeyPressTime := 1000, lastKey := '5' }).2
      = { initialState (fun _ => 255) with lastKeyPressTime := 1000, lastKey := '5' } ∧
    (isValidKeyPress '5' 1400
      { initialState (fun _ => 255) with lastKeyPressTime := 1000, lastKey := '5' }).2
      = { initialState (fun _ => 255) with lastKeyPressTime := 1400, lastKey := '5' } ∧
    (isValidKeyPress '6' 1200
      { initialState (fun _ => 255) with lastKeyPressTime := 1000, lastKey := '5' }).2
      = { initialState (fun _ => 255) with lastKeyPressTime := 1200, lastKey := '6' } :=
  ⟨(isValidKeyPress_contract '5' 1399
      { initialState (fun _ => 255) with lastKeyPressTime := 1000, lastKey := '5' }).2.2.2
      (by decide),
   (isValidKeyPress_contract '5' 1400
      { initialState (fun _ => 255) with lastKeyPressTime := 1000, lastKey := '5' }).2.2.1
      (by decide),
   (isValidKeyPress_contract '6' 1200
      { initialState (fun _ => 255) with lastKeyPressTime := 1000, lastKey := '5' }).2.2.1
      (by decide)⟩

/-! ## The PIN entry controller -/

theorem isDigit_ne_special (c : Char) (h : c.isDigit = true) : c ≠ '#' ∧ c ≠ '\x00' := by
  constructor <;> (intro hc; subst hc; revert h; decide)

theorem isValidKeyPress_accept_iff (key : Char) (ms : Nat) (s : State) :
    (isValidKeyPress key ms s).1 = true ↔
      (KEY_DEBOUNCE_TIME ≤ usub ms s.lastKeyPressTime ∧
        (key = s.lastKey → 2 * KEY_DEBOUNCE_TIME ≤ usub ms s.lastKeyPressTime)) := by
  simp only [isValidKeyPress, KEY_DEBOUNCE_TIME]
  split_ifs with h1 h2
  · simp; omega
  · simp; intro _; exact ⟨h2.1, by omega⟩
  · simp
    refine ⟨by omega, fun hk => ?_⟩
    have : ¬ (usub ms s.lastKeyPressTime < 200 * 2) := fun h => h2 ⟨hk, h⟩
    omega

theorem isValidKeyPress_accepted (key : Char) (ms : Nat) (s : State)
    (h : (isValidKeyPress key ms s).1 = true) :
    (isValidKeyPress key ms s).2 = { s with lastKeyPressTime := ms, lastKey := key } := by
  revert h
  simp only [isValidKeyPress]
  split_ifs <;> simp

theorem isValidKeyPress_rejected (key : Char) (ms : Nat) (s : State)
    (h : (isValidKeyPress key ms s).1 = false) :
    (isValidKeyPress key ms s).2 = s := by
  revert h
  simp only [isValidKeyPress]
  split_ifs <;> simp

/-- An accepted digit with a free slot: the debounce record is updated, the
digit is written at the cursor, the cursor advances, and `verifyPin` runs if
that made the cursor 4. -/
theorem handlePinEntry_digit (key : Char) (ms ms1 ms2 ms3 : Nat) (s : State)
    (hd : key.isDigit = true) (hacc : (isValidKeyPress key ms s).1 = true)
    (hpos : s.pinPosition < 4) :
    handlePinEntry key ms ms1 ms2 ms3 s =
      if s.pinPosition + 1 = 4 then
        verifyPin ms1 ms2 ms3 { s with
          lastKeyPressTime := ms
          lastKey := key
          enteredPin := fun i => if i = s.pinPosition then key else s.enteredPin i
          pinPosition := s.pinPosition + 1 }
      else
        { s with
          lastKeyPressTime := ms
          lastKey := key
          enteredPin := fun i => if i = s.pinPosition then key else s.enteredPin i
          pinPosition := s.pinPosition + 1 } := by
  obtain ⟨h1, h2⟩ := isDigit_ne_special key hd
  have hm : (s.pinPosition + 1) % 256 = s.pinPosition + 1 := by omega
  simp only [handlePinEntry, hacc, isValidKeyPress_accepted key ms s hacc, h1, h2, hd, hpos, hm,
    ne_eq, not_false_eq_true, and_self, if_true, if_false]

/-- A key that the debounce check rejects changes nothing. -/
theorem handlePinEntry_rejected (key : Char) (ms ms1 ms2 ms3 : Nat) (s : State)
    (h : (isValidKeyPress key ms s).1 = false) :
    handlePinEntry key ms ms1 ms2 ms3 s = s := by
  simp [handlePinEntry, h]

/-- C11 (as stated, refuted): with exactly two free slots ("12--"), the digit
'3' accepted at tick 5000 and the different digit '4' at tick 5200 are both
appended, but the second one completes the buffer, `verifyPin` runs at once,
and the buffer that `handlePinEntry` leaves is empty again. -/
theorem two_free_slots_counterexample :
    let s : State := { initialState (fun _ => 255) with
      enteredPin := fun i => if i = 0 then '1' else if i = 1 then '2' else '-'
      pinPosition := 2 }
    let s1 := handlePinEntry '3' 5000 5000 5000 5000 s
    let s2 := handlePinEntry '4' 5200 5200 5200 5200 s1
    (isValidKeyPress '3' 5000 s).1 = true ∧ s1.pinPosition = 3 ∧ s1.enteredPin 2 = '3' ∧
    s2.pinPosition = 0 ∧ s2.enteredPin 2 = '-' ∧ s2.enteredPin 3 = '-' ∧
    s2.failedAttempts = 1 := by
  decide

/-- C11 (amended): let a digit `d1` be accepted at tick `t1` with at least two
free slots; it is appended at the cursor. (a) The same digit at a tick `t2`
less than `2 * KEY_DEBOUNCE_TIME` later changes nothing, so exactly one digit
was appended. (b) A different digit `d2` at a tick `t2` at least
`KEY_DEBOUNCE_TIME` later is appended too: with at least three free slots both
digits are then in the buffer in order; with exactly two free slots the second
digit fills the last slot and the result is that of `verifyPin` on the full
buffer holding both digits in order. -/
theorem debounce_two_events (s : State) (d1 d2 : Char) (t1 t2 v1 v2 v3 w1 w2 w3 : Nat)
    (hd1 : d1.isDigit = true) (hacc : (isValidKeyPress d1 t1 s).1 = true)
    (hpos : s.pinPosition ≤ 2) (h12 : t1 ≤ t2) (hlt : t2 < 4294967296) :
    let s1 := handlePinEntry d1 t1 v1 v2 v3 s
    let s2 := handlePinEntry d2 t2 w1 w2 w3 s1
    (s1.pinPosition = s.pinPosition + 1 ∧ s1.enteredPin s.pinPosition = d1 ∧
      ∀ i, i ≠ s.pinPosition → s1.enteredPin i = s.enteredPin i) ∧
    (t2 - t1 < 2 * KEY_DEBOUNCE_TIME → handlePinEntry d1 t2 w1 w2 w3 s1 = s1) ∧
    (d2.isDigit = true → d2 ≠ d1 → KEY_DEBOUNCE_TIME ≤ t2 - t1 →
      (s.pinPosition ≤ 1 →
        s2.pinPosition = s.pinPosition + 2 ∧ s2.enteredPin s.pinPosition = d1 ∧
        s2.enteredPin (s.pinPosition + 1) = d2 ∧
        ∀ i, i ≠ s.pinPosition → i ≠ s.pinPosition + 1 → s2.enteredPin i = s.enteredPin i) ∧
      (s.pinPosition = 2 →
        s2 = verifyPin w1 w2 w3 { s1 with
          lastKeyPressTime := t2
          lastKey := d2
          enteredPin := fun i => if i = 3 then d2 else s1.enteredPin i
          pinPosition := 4 } ∧
        s1.enteredPin 2 = d1)) := by
  intro s1 s2
  have hs1 : s1 = { s with
      lastKeyPressTime := t1
      lastKey := d1
      enteredPin := fun i => if i = s.pinPosition then d1 else s.enteredPin i
      pinPosition := s.pinPosition + 1 } := by
    have h4 : ¬ (s.pinPosition + 1 = 4) := by omega
    simp only [s1, handlePinEntry_digit d1 t1 v1 v2 v3 s hd1 hacc (by omega), h4, if_false]
  have hu : usub t2 s1.lastKeyPressTime = t2 - t1 := by
    rw [hs1]; exact usub_of_le h12 hlt
  have hk : s1.lastKey = d1 := by rw [hs1]
  have hp : s1.pinPosition = s.pinPosition + 1 := by rw [hs1]
  refine ⟨⟨hp, by rw [hs1]; simp, fun i hi => by rw [hs1]; simp [hi]⟩, ?_, ?_⟩
  · intro h
    apply handlePinEntry_rejected
    have : ¬ ((isValidKeyPress d1 t2 s1).1 = true) := by
      rw [isValidKeyPress_accept_iff, hu, hk]
      intro hc
      have := hc.2 rfl
      omega
    simpa using this
  · intro hd2 hne hge
    have hacc2 : (isValidKeyPress d2 t2 s1).1 = true := by
      rw [isValidKeyPress_accept_iff, hu, hk]
      exact ⟨hge, fun h => absurd h hne⟩
    have h2 := handlePinEntry_digit d2 t2 w1 w2 w3 s1 hd2 hacc2 (by omega)
    constructor
    · intro hle
      have h4 : ¬ (s1.pinPosition + 1 = 4) := by omega
      have hs2 : s2 = { s1 with
          lastKeyPressTime := t2
          lastKey := d2
          enteredPin := fun i => if i = s1.pinPosition then d2 else s1.enteredPin i
          pinPosition := s1.pinPosition + 1 } := by
        simp only [s2, h2, h4, if_false]
      rw [hs2, hs1]
      refine ⟨rfl, by simp, by simp, fun i hi hi2 => by simp [hi, hi2]⟩
    · intro h2eq
      have h4 : s1.pinPosition + 1 = 4 := by omega
      have h3 : s1.pinPosition = 3 := by omega
      refine ⟨?_, by rw [hs1]; simp [h2eq]⟩
      simp only [s2, h2, h4, h3, if_true]

/-- C11 (amended), at concrete inputs: from an empty buffer, '5' at tick 5000
and '5' again at tick 5399 leave one digit; '5' at tick 5000 and '6' at tick
5200 leave "56--". -/
theorem debounce_two_events_witness :
    (handlePinEntry '5' 5399 0 0 0
      (handlePinEntry '5' 5000 0 0 0 (initialState (fun _ => 255)))).pinPosition = 1 ∧
    (handlePinEntry '6' 5200 0 0 0
      (handlePinEntry '5' 5000 0 0 0 (initialState (fun _ => 255)))).enteredPin 1 = '6' :=
  have h := debounce_two_events (initialState (fun _ => 255)) '5' '6' 5000 5399 0 0 0 0 0 0
    (by decide) (by decide) (by decide) (by decide) (by decide)
  have h2 := debounce_two_events (initialState (fun _ => 255)) '5' '6' 5000 5200 0 0 0 0 0 0
    (by decide) (by decide) (by decide) (by decide) (by decide)
  ⟨(congrArg State.pinPosition (h.2.1 (by decide))).trans h.1.1,
   ((h2.2.2 (by decide) (by decide) (by decide)).1 (by decide)).2.2.1⟩

/-! ## The buffer after a verification -/

/-- C12 (the code at the failing input): `verifyPin` on the full buffer "1911"
authenticates and leaves the buffer "1911" with the cursor at 4; only the
branch for a wrong PIN calls `resetPinEntry` (buffer "----", cursor 0, as
after the wrong buffer "1912"). -/
theorem verifyPin_success_keeps_buffer :
    (verifyPin 9000 9000 9000
      { initialState (fun _ => 255) with
        enteredPin := CORRECT_PIN, pinPosition := 4 }).authenticated = true ∧
    (let r := verifyPin 9000 9000 9000
        { initialState (fun _ => 255) with enteredPin := CORRECT_PIN, pinPosition := 4 }
     r.pinPosition = 4 ∧
     r.enteredPin 0 = '1' ∧ r.enteredPin 1 = '9' ∧ r.enteredPin 2 = '1' ∧ r.enteredPin 3 = '1') ∧
    (let r := verifyPin 9000 9000 9000
        { initialState (fun _ => 255) with
          enteredPin := fun i => if i = 3 then '2' else CORRECT_PIN i, pinPosition := 4 }
     r.authenticated = false ∧ r.pinPosition = 0 ∧
     r.enteredPin 0 = '-' ∧ r.enteredPin 1 = '-' ∧ r.enteredPin 2 = '-' ∧ r.enteredPin 3 = '-') := by
  decide

/-! ## Authentication and the relay -/

theorem verifyPin_correct_sets (ms1 ms2 ms3 : Nat) (s : State) (h : pinMatches s.enteredPin) :
    (verifyPin ms1 ms2 ms3 s).authenticated = true ∧ (verifyPin ms1 ms2 ms3 s).relay = true := by
  rw [verifyPin_of_correct ms1 ms2 ms3 s h]
  simp [saveSecurityState]

/-- One call of `handlePinEntry` either leaves `authenticated` and the relay
as they were, or it is the call of `verifyPin` on a buffer holding the correct
PIN, completed by this key at the cursor, and both are on afterwards. -/
theorem handlePinEntry_auth (key : Char) (ms ms1 ms2 ms3 : Nat) (s : State) :
    ((handlePinEntry key ms ms1 ms2 ms3 s).authenticated = s.authenticated ∧
      (handlePinEntry key ms ms1 ms2 ms3 s).relay = s.relay) ∨
    ((handlePinEntry key ms ms1 ms2 ms3 s).authenticated = true ∧
      (handlePinEntry key ms ms1 ms2 ms3 s).relay = true ∧
      s.pinPosition = 3 ∧
      pinMatches (fun i => if i = s.pinPosition then key else s.enteredPin i) ∧
      handlePinEntry key ms ms1 ms2 ms3 s = verifyPin ms1 ms2 ms3 { s with
        lastKeyPressTime := ms
        lastKey := key
        enteredPin := fun i => if i = s.pinPosition then key else s.enteredPin i
        pinPosition := s.pinPosition + 1 }) := by
  by_cases h0 : key = '\x00'
  · left
    have : handlePinEntry key ms ms1 ms2 ms3 s = s := by simp [handlePinEntry, h0]
    rw [this]
    exact ⟨rfl, rfl⟩
  by_cases hacc : (isValidKeyPress key ms s).1 = true
  · by_cases hd : key.isDigit = true ∧ s.pinPosition < 4
    · rw [handlePinEntry_digit key ms ms1 ms2 ms3 s hd.1 hacc hd.2]
      by_cases h4 : s.pinPosition + 1 = 4
      · rw [if_pos h4]
        by_cases hm : pinMatches (fun i => if i = s.pinPosition then key else s.enteredPin i)
        · right
          obtain ⟨a, b⟩ := verifyPin_correct_sets ms1 ms2 ms3 { s with
            lastKeyPressTime := ms
            lastKey := key
            enteredPin := fun i => if i = s.pinPosition then key else s.enteredPin i
            pinPosition := s.pinPosition + 1 } hm
          exact ⟨a, b, by omega, hm, rfl⟩
        · left
          exact verifyPin_wrong_keeps ms1 ms2 ms3 { s with
            lastKeyPressTime := ms
            lastKey := key
            enteredPin := fun i => if i = s.pinPosition then key else s.enteredPin i
            pinPosition := s.pinPosition + 1 } hm
      · left
        rw [if_neg h4]
        exact ⟨rfl, rfl⟩
    · left
      have hs : handlePinEntry key ms ms1 ms2 ms3 s =
          if key = '#' then deleteLastDigit { s with lastKeyPressTime := ms, lastKey := key }
          else { s with lastKeyPressTime := ms, lastKey := key } := by
        simp only [handlePinEntry, hacc, isValidKeyPress_accepted key ms s hacc, hd, h0,
          ne_eq, not_false_eq_true, and_self, if_true, if_false]
      rw [hs]
      simp only [deleteLastDigit]
      split_ifs <;> exact ⟨rfl, rfl⟩
  · left
    have : (isValidKeyPress key ms s).1 = false := by simpa using hacc
    rw [handlePinEntry_rejected key ms ms1 ms2 ms3 s this]
    exact ⟨rfl, rfl⟩

theorem handleLockoutScreen_auth (ms1 ms2 : Nat) (s : State) :
    (handleLockoutScreen ms1 ms2 s).authenticated = s.authenticated ∧
    (handleLockoutScreen ms1 ms2 s).relay = s.relay := by
  simp only [handleLockoutScreen, resetPinEntry, saveSecurityState]
  split_ifs <;> exact ⟨rfl, rfl⟩

theorem setup_auth (msBoot msLoad ms1 ms2 : Nat) (s : State) :
    (setup msBoot msLoad ms1 ms2 s).authenticated = s.authenticated ∧
    (setup msBoot msLoad ms1 ms2 s).relay = false := by
  simp only [setup, checkLockoutStatus, loadSecurityState, initializeRTC, saveSecurityState]
  split_ifs <;> exact ⟨rfl, rfl⟩

/-- One pass of `loop` either leaves `authenticated` and the relay as they
were, or the system was on the PIN screen and the pass is the call of
`verifyPin` on a buffer holding the correct PIN. -/
theorem loop_auth (x : LoopInput) (s : State) :
    ((loop x s).authenticated = s.authenticated ∧ (loop x s).relay = s.relay) ∨
    (s.systemLocked = false ∧ s.authenticated = false ∧
      (loop x s).authenticated = true ∧ (loop x s).relay = true ∧
      s.pinPosition = 3 ∧
      pinMatches (fun i => if i = s.pinPosition then x.key else s.enteredPin i) ∧
      loop x s = verifyPin x.ms1 x.ms2 x.ms3 { s with
        lastKeyPressTime := x.ms
        lastKey := x.key
        enteredPin := fun i => if i = s.pinPosition then x.key else s.enteredPin i
        pinPosition := s.pinPosition + 1 }) := by
  by_cases hl : s.systemLocked = true
  · left
    have : loop x s = handleLockoutScreen x.lock1 x.lock2 s := by simp [loop, hl]
    rw [this]
    exact handleLockoutScreen_auth _ _ s
  · by_cases ha : s.authenticated = false
    · have : loop x s = handlePinEntry x.key x.ms x.ms1 x.ms2 x.ms3 s := by simp [loop, hl, ha]
      rw [this]
      rcases handlePinEntry_auth x.key x.ms x.ms1 x.ms2 x.ms3 s with h | ⟨h1, h2, h3, h4, h5⟩
      · exact Or.inl h
      · exact Or.inr ⟨by simpa using hl, ha, h1, h2, h3, h4, h5⟩
    · left
      have : loop x s = s := by simp [loop, hl, ha]
      rw [this]
      exact ⟨rfl, rfl⟩

/-- Along any run of `loop`, the relay output stays equal to `authenticated`,
and `authenticated` stays on once it is on. -/
theorem run_relay_invariant (xs : List LoopInput) :
    ∀ s : State, s.relay = s.authenticated →
      (xs.foldl (fun s x => loop x s) s).relay = (xs.foldl (fun s x => loop x s) s).authenticated ∧
      (s.authenticated = true → (xs.foldl (fun s x => loop x s) s).authenticated = true) := by
  induction xs with
  | nil => intro s h; exact ⟨h, id⟩
  | cons x xs ih =>
    intro s h
    rw [List.foldl_cons]
    rcases loop_auth x s with ⟨h1, h2⟩ | ⟨-, -, h1, h2, -⟩
    · obtain ⟨i1, i2⟩ := ih (loop x s) (by rw [h1, h2]; exact h)
      exact ⟨i1, fun ha => i2 (by rw [h1]; exact ha)⟩
    · obtain ⟨i1, i2⟩ := ih (loop x s) (by rw [h1, h2])
      exact ⟨i1, fun _ => i2 h1⟩

/-- C13: in every state `pre` reached from boot (`setup` on any store content,
then any passes of `loop` with any keys and ticks) and for every further pass
to `post`: the relay is high only if `authenticated` is set; if
`authenticated` goes from false to true, the pass was on the PIN screen and is
the `verifyPin` call on a buffer that holds the correct PIN; and if
`authenticated` is set it stays set and the relay stays high. -/
theorem relay_only_when_authenticated (flash : Nat → Nat) (msBoot msLoad ms1 ms2 : Nat)
    (xs : List LoopInput) (x : LoopInput) :
    let pre := xs.foldl (fun s x => loop x s) (setup msBoot msLoad ms1 ms2 (initialState flash))
    let post := loop x pre
    (pre.relay = true → pre.authenticated = true) ∧
    (pre.authenticated = false → post.authenticated = true →
      pre.systemLocked = false ∧
      pinMatches (fun i => if i = pre.pinPosition then x.key else pre.enteredPin i) ∧
      post = verifyPin x.ms1 x.ms2 x.ms3 { pre with
        lastKeyPressTime := x.ms
        lastKey := x.key
        enteredPin := fun i => if i = pre.pinPosition then x.key else pre.enteredPin i
        pinPosition := pre.pinPosition + 1 }) ∧
    (pre.authenticated = true → post.authenticated = true ∧ post.relay = true) := by
  intro pre post
  obtain ⟨b1, b2⟩ := setup_auth msBoot msLoad ms1 ms2 (initialState flash)
  have hinit : (setup msBoot msLoad ms1 ms2 (initialState flash)).relay
      = (setup msBoot msLoad ms1 ms2 (initialState flash)).authenticated := by
    rw [b1, b2]; rfl
  have hpre : pre.relay = pre.authenticated := (run_relay_invariant xs _ hinit).1
  have hpost := run_relay_invariant [x] pre hpre
  simp only [List.foldl_cons, List.foldl_nil] at hpost
  refine ⟨fun h => by rw [← hpre]; exact h, fun hf ht => ?_, fun ha => ?_⟩
  · rcases loop_auth x pre with ⟨h1, -⟩ | ⟨h1, -, -, -, -, h6, h7⟩
    · have h1' : post.authenticated = pre.authenticated := h1
      rw [h1', hf] at ht
      exact absurd ht (by decide)
    · exact ⟨h1, h6, h7⟩
  · have h2 : post.authenticated = true := hpost.2 ha
    have h3 : post.relay = post.authenticated := hpost.1
    exact ⟨h2, by rw [h3]; exact h2⟩

/-- C13, at a concrete input: after boot on an erased store the keys 1, 9, 1,
1 switch the relay on, and a later pass with the key '#' leaves it on. -/
theorem relay_only_when_authenticated_witness :
    let k (c : Char) (t : Nat) : LoopInput :=
      { key := c, ms := t, ms1 := t, ms2 := t, ms3 := t, lock1 := t, lock2 := t }
    let pre := [k '1' 4000, k '9' 4300, k '1' 4600, k '1' 5000].foldl (fun s x => loop x s)
      (setup 50 55 3060 3060 (initialState (fun _ => 255)))
    pre.authenticated = true ∧ (loop (k '#' 9000) pre).relay = true :=
  have h := relay_only_when_authenticated (fun _ => 255) 50 55 3060 3060
    [{ key := '1', ms := 4000, ms1 := 4000, ms2 := 4000, ms3 := 4000, lock1 := 4000, lock2 := 4000 },
     { key := '9', ms := 4300, ms1 := 4300, ms2 := 4300, ms3 := 4300, lock1 := 4300, lock2 := 4300 },
     { key := '1', ms := 4600, ms1 := 4600, ms2 := 4600, ms3 := 4600, lock1 := 4600, lock2 := 4600 },
     { key := '1', ms := 5000, ms1 := 5000, ms2 := 5000, ms3 := 5000, lock1 := 5000, lock2 := 5000 }]
    { key := '#', ms := 9000, ms1 := 9000, ms2 := 9000, ms3 := 9000, lock1 := 9000, lock2 := 9000 }
  ⟨by decide, (h.2.2 (by decide)).2⟩

/-! ## Expiry of a lockout -/

/-- What `saveSecurityState` leaves in the store: the attempt count, the
lockout start and the lockout flag, committed; the words of the real-elapsed
record and of the boot timestamp are those of the working copy before. -/
theorem saveSecurityState_store (s : State) :
    (saveSecurityState s).EEPROM.flash = (saveSecurityState s).EEPROM.data ∧
    (saveSecurityState s).EEPROM.get8 ATTEMPTS_ADDR = s.failedAttempts % 256 ∧
    (saveSecurityState s).EEPROM.get32 LOCKOUT_START_ADDR = s.lockoutStartTime % 4294967296 ∧
    (saveSecurityState s).EEPROM.get8 LOCKOUT_ACTIVE_ADDR = (if s.systemLocked then 1 else 0) ∧
    (saveSecurityState s).EEPROM.get32 LOCKOUT_TIMESTAMP_ADDR
      = s.EEPROM.get32 LOCKOUT_TIMESTAMP_ADDR ∧
    (saveSecurityState s).EEPROM.get32 BOOT_TIMESTAMP_ADDR = s.EEPROM.get32 BOOT_TIMESTAMP_ADDR := by
  refine ⟨rfl, ?_, ?_, ?_, ?_, ?_⟩
  · simp [saveSecurityState, EEPROMClass.get8, EEPROMClass.put32, EEPROMClass.put8,
      EEPROMClass.commit, ATTEMPTS_ADDR, LOCKOUT_START_ADDR, LOCKOUT_ACTIVE_ADDR]
  · simp [saveSecurityState, EEPROMClass.get32, EEPROMClass.get8, EEPROMClass.put32,
      EEPROMClass.put8, EEPROMClass.commit, ATTEMPTS_ADDR, LOCKOUT_START_ADDR,
      LOCKOUT_ACTIVE_ADDR, bytes_recompose]
  · simp [saveSecurityState, EEPROMClass.get8, EEPROMClass.put32, EEPROMClass.put8,
      EEPROMClass.commit, ATTEMPTS_ADDR, LOCKOUT_START_ADDR, LOCKOUT_ACTIVE_ADDR]
    split_ifs <;> omega
  · simp [saveSecurityState, EEPROMClass.get32, EEPROMClass.get8, EEPROMClass.put32,
      EEPROMClass.put8, EEPROMClass.commit, ATTEMPTS_ADDR, LOCKOUT_START_ADDR,
      LOCKOUT_ACTIVE_ADDR, LOCKOUT_TIMESTAMP_ADDR]
  · simp [saveSecurityState, EEPROMClass.get32, EEPROMClass.get8, EEPROMClass.put32,
      EEPROMClass.put8, EEPROMClass.commit, ATTEMPTS_ADDR, LOCKOUT_START_ADDR,
      LOCKOUT_ACTIVE_ADDR, BOOT_TIMESTAMP_ADDR]

theorem flash_eq_get (e : EEPROMClass) (h : e.flash = e.data) :
    (∀ a, e.flash8 a = e.get8 a) ∧ (∀ a, e.flash32 a = e.get32 a) := by
  constructor <;> intro a <;>
    simp only [EEPROMClass.flash32, EEPROMClass.get32, EEPROMClass.flash8, EEPROMClass.get8, h]

/-- The variables and the store after the reset both lockout evaluations make
when a lockout has expired. -/
theorem expiry_reset_state (s : State) :
    let r := saveSecurityState { s with
      failedAttempts := 0
      lockoutStartTime := 0
      lockoutRealStartTime := 0
      systemLocked := false }
    r.failedAttempts = 0 ∧ r.lockoutStartTime = 0 ∧ r.lockoutRealStartTime = 0 ∧
    r.systemLocked = false ∧ r.authenticated = s.authenticated ∧
    r.EEPROM.flash8 ATTEMPTS_ADDR = 0 ∧ r.EEPROM.flash32 LOCKOUT_START_ADDR = 0 ∧
    r.EEPROM.flash8 LOCKOUT_ACTIVE_ADDR = 0 ∧
    r.EEPROM.flash32 LOCKOUT_TIMESTAMP_ADDR = s.EEPROM.get32 LOCKOUT_TIMESTAMP_ADDR ∧
    r.EEPROM.flash32 BOOT_TIMESTAMP_ADDR = s.EEPROM.get32 BOOT_TIMESTAMP_ADDR ∧
    loadRealTimestamp r = loadRealTimestamp s := by
  intro r
  obtain ⟨h0, h1, h2, h3, h4, h5⟩ := saveSecurityState_store { s with
      failedAttempts := 0
      lockoutStartTime := 0
      lockoutRealStartTime := 0
      systemLocked := false }
  obtain ⟨f8, f32⟩ := flash_eq_get r.EEPROM h0
  refine ⟨rfl, rfl, rfl, rfl, rfl, ?_, ?_, ?_, ?_, ?_, ?_⟩
  · rw [f8]; exact h1
  · rw [f32]; exact h2
  · rw [f8]; exact h3
  · rw [f32]; exact h4
  · rw [f32]; exact h5
  · simp only [loadRealTimestamp]
    rw [h4, h5]

/-- C14 (as stated, refuted): a lockout declared at tick 5000 expires at tick
125000; the evaluation zeroes the attempt count and the lockout start in the
store, but the real-elapsed record of that lockout (5 seconds since boot) is
still in the committed store and `loadRealTimestamp` still returns it. -/
theorem expiry_keeps_real_record_counterexample :
    let s := verifyPin 5000 5000 5000 { initialState (fun _ => 255) with failedAttempts := 4 }
    let r := checkLockoutStatus 125000 125000 s
    let h := handleLockoutScreen 125000 125000 s
    r.failedAttempts = 0 ∧ r.systemLocked = false ∧
    r.EEPROM.flash32 LOCKOUT_TIMESTAMP_ADDR = 5 ∧ loadRealTimestamp r = 5 ∧
    h.failedAttempts = 0 ∧ h.systemLocked = false ∧
    h.EEPROM.flash32 LOCKOUT_TIMESTAMP_ADDR = 5 ∧ loadRealTimestamp h = 5 := by
  decide

/-- C14 (amended): when a lockout evaluation finds the lockout expired
(attempts exhausted, lockout start set, elapsed time at least
`LOCKOUT_DURATION`), it sets `failedAttempts = 0`, clears `lockoutStartTime`
and `lockoutRealStartTime`, unlocks without touching `authenticated`, and
commits attempt count 0, lockout start 0 and lockout flag 0 to the store. The
stored real-elapsed record and boot timestamp are left as they were. This
holds for `checkLockoutStatus` and for `handleLockoutScreen`. -/
theorem lockout_expiry (ms1 ms2 : Nat) (s : State)
    (hfa : s.failedAttempts ≥ MAX_ATTEMPTS) (hst : s.lockoutStartTime > 0) :
    (checkLockoutStatus.elapsedTime ms1 ms2 s ≥ LOCKOUT_DURATION →
      let r := checkLockoutStatus ms1 ms2 s
      r.failedAttempts = 0 ∧ r.lockoutStartTime = 0 ∧ r.lockoutRealStartTime = 0 ∧
      r.systemLocked = false ∧ r.authenticated = s.authenticated ∧
      r.EEPROM.flash8 ATTEMPTS_ADDR = 0 ∧ r.EEPROM.flash32 LOCKOUT_START_ADDR = 0 ∧
      r.EEPROM.flash8 LOCKOUT_ACTIVE_ADDR = 0 ∧
      r.EEPROM.flash32 LOCKOUT_TIMESTAMP_ADDR = s.EEPROM.get32 LOCKOUT_TIMESTAMP_ADDR ∧
      r.EEPROM.flash32 BOOT_TIMESTAMP_ADDR = s.EEPROM.get32 BOOT_TIMESTAMP_ADDR ∧
      loadRealTimestamp r = loadRealTimestamp s) ∧
    (handleLockoutScreen.elapsedTime ms1 ms2 s ≥ LOCKOUT_DURATION →
      let r := handleLockoutScreen ms1 ms2 s
      r.failedAttempts = 0 ∧ r.lockoutStartTime = 0 ∧ r.lockoutRealStartTime = 0 ∧
      r.systemLocked = false ∧ r.authenticated = s.authenticated ∧
      r.EEPROM.flash8 ATTEMPTS_ADDR = 0 ∧ r.EEPROM.flash32 LOCKOUT_START_ADDR = 0 ∧
      r.EEPROM.flash8 LOCKOUT_ACTIVE_ADDR = 0 ∧
      r.EEPROM.flash32 LOCKOUT_TIMESTAMP_ADDR = s.EEPROM.get32 LOCKOUT_TIMESTAMP_ADDR ∧
      r.EEPROM.flash32 BOOT_TIMESTAMP_ADDR = s.EEPROM.get32 BOOT_TIMESTAMP_ADDR ∧
      loadRealTimestamp r = loadRealTimestamp s) := by
  constructor
  · intro he
    have he2 : ¬ (checkLockoutStatus.elapsedTime ms1 ms2 s < LOCKOUT_DURATION) := by omega
    have hr : checkLockoutStatus ms1 ms2 s = saveSecurityState { s with
        failedAttempts := 0
        lockoutStartTime := 0
        lockoutRealStartTime := 0
        systemLocked := false } := by
      simp only [checkLockoutStatus, hfa, hst, he2, and_self, if_true, if_false]
    intro r
    have hr' : r = _ := hr
    rw [hr']
    exact expiry_reset_state s
  · intro he
    have hr : handleLockoutScreen ms1 ms2 s = resetPinEntry (saveSecurityState { s with
        failedAttempts := 0
        lockoutStartTime := 0
        lockoutRealStartTime := 0
        systemLocked := false }) := by
      simp only [handleLockoutScreen, he, if_true]
    intro r
    have hr' : r = _ := hr
    rw [hr']
    exact expiry_reset_state s

/-- C14 (amended), at a concrete input: the lockout declared at tick 5000 and
evaluated at tick 125000 leaves attempt count 0 committed. -/
theorem lockout_expiry_witness :
    (checkLockoutStatus 125000 125000
      (verifyPin 5000 5000 5000
        { initialState (fun _ => 255) with failedAttempts := 4 })).EEPROM.flash8 ATTEMPTS_ADDR
      = 0 :=
  ((lockout_expiry 125000 125000
      (verifyPin 5000 5000 5000 { initialState (fun _ => 255) with failedAttempts := 4 })
      (by decide) (by decide)).1 (by decide)).2.2.2.2.2.1

/-! ## Delete key and ignored input -/

/-- C15: with the cursor above 0, `deleteLastDigit` moves the cursor one slot
back and writes the placeholder into that slot, leaving every other slot and
every other variable as it was; with the cursor at 0 it changes nothing. -/
theorem deleteLastDigit_effect (s : State) :
    (s.pinPosition > 0 →
      (deleteLastDigit s).pinPosition = s.pinPosition - 1 ∧
      (deleteLastDigit s).enteredPin (s.pinPosition - 1) = '-' ∧
      (∀ i, i ≠ s.pinPosition - 1 → (deleteLastDigit s).enteredPin i = s.enteredPin i) ∧
      deleteLastDigit s = { s with
        pinPosition := (deleteLastDigit s).pinPosition
        enteredPin := (deleteLastDigit s).enteredPin }) ∧
    (s.pinPosition = 0 → deleteLastDigit s = s) := by
  constructor
  · intro h
    have hs : deleteLastDigit s = { s with
        pinPosition := s.pinPosition - 1
        enteredPin := fun i => if i = s.pinPosition - 1 then '-' else s.enteredPin i } := by
      simp only [deleteLastDigit, h, if_true]
    rw [hs]
    exact ⟨rfl, by simp, fun i hi => by simp [hi], rfl⟩
  · intro h
    simp [deleteLastDigit, h]

/-- C15, at concrete inputs: deleting from "12--" gives "1---" with the cursor
at 1; deleting from the empty buffer changes nothing. -/
theorem deleteLastDigit_effect_witness :
    (deleteLastDigit { initialState (fun _ => 255) with
      enteredPin := fun i => if i = 0 then '1' else if i = 1 then '2' else '-'
      pinPosition := 2 }).enteredPin 1 = '-' ∧
    deleteLastDigit (initialState (fun _ => 255)) = initialState (fun _ => 255) :=
  ⟨((deleteLastDigit_effect { initialState (fun _ => 255) with
      enteredPin := fun i => if i = 0 then '1' else if i = 1 then '2' else '-'
      pinPosition := 2 }).1 (by decide)).2.1,
   (deleteLastDigit_effect (initialState (fun _ => 255))).2 rfl⟩

/-- C16 (as stated, refuted): the key '*' at tick 2000, after '5' was accepted
at tick 1000, replaces the debounce record by ('*', 2000), and that changes
how the next key is handled: '5' at tick 2100 is then dropped, while without
the '*' event it is appended. -/
theorem star_key_changes_debounce_counterexample :
    let s : State := { initialState (fun _ => 255) with lastKeyPressTime := 1000, lastKey := '5' }
    let r := handlePinEntry '*' 2000 0 0 0 s
    r.lastKey = '*' ∧ r.lastKeyPressTime = 2000 ∧
    (handlePinEntry '5' 2100 0 0 0 r).pinPosition = 0 ∧
    (handlePinEntry '5' 2100 0 0 0 s).pinPosition = 1 := by
  decide

/-- C16 (amended): a key that is neither a digit nor '#', and a digit arriving
with the buffer full, leave the PIN buffer, the cursor, `failedAttempts`, the
lockout markers, the lock and authentication flags, the relay and the store
unchanged. The debounce record is the only thing that can change: it becomes
this key and tick when the key passes the debounce check, and stays as it was
when the key is rejected (or is no key at all). -/
theorem invalid_input_effect (key : Char) (ms ms1 ms2 ms3 : Nat) (s : State)
    (hinv : (key.isDigit = false ∧ key ≠ '#') ∨ (key.isDigit = true ∧ 4 ≤ s.pinPosition)) :
    handlePinEntry key ms ms1 ms2 ms3 s =
      (if key ≠ '\x00' ∧ (isValidKeyPress key ms s).1 = true then
        { s with lastKeyPressTime := ms, lastKey := key }
      else s) ∧
    (handlePinEntry key ms ms1 ms2 ms3 s).enteredPin = s.enteredPin ∧
    (handlePinEntry key ms ms1 ms2 ms3 s).pinPosition = s.pinPosition ∧
    (handlePinEntry key ms ms1 ms2 ms3 s).failedAttempts = s.failedAttempts ∧
    (handlePinEntry key ms ms1 ms2 ms3 s).lockoutStartTime = s.lockoutStartTime ∧
    (handlePinEntry key ms ms1 ms2 ms3 s).lockoutRealStartTime = s.lockoutRealStartTime ∧
    (handlePinEntry key ms ms1 ms2 ms3 s).systemLocked = s.systemLocked ∧
    (handlePinEntry key ms ms1 ms2 ms3 s).authenticated = s.authenticated ∧
    (handlePinEntry key ms ms1 ms2 ms3 s).relay = s.relay ∧
    (handlePinEntry key ms ms1 ms2 ms3 s).EEPROM = s.EEPROM := by
  have hs : handlePinEntry key ms ms1 ms2 ms3 s =
      (if key ≠ '\x00' ∧ (isValidKeyPress key ms s).1 = true then
        { s with lastKeyPressTime := ms, lastKey := key }
      else s) := by
    by_cases hc : key ≠ '\x00' ∧ (isValidKeyPress key ms s).1 = true
    · have hk : key ≠ '#' := by
        rcases hinv with h | h
        · exact h.2
        · exact (isDigit_ne_special key h.1).1
      have hd : ¬ (key.isDigit = true ∧ s.pinPosition < 4) := by
        rcases hinv with h | h
        · intro hh; rw [h.1] at hh; exact absurd hh.1 (by decide)
        · intro hh; omega
      simp only [handlePinEntry, hc, isValidKeyPress_accepted key ms s hc.2, hk, hd,
        and_self, if_true, if_false]
    · simp only [handlePinEntry, hc, if_false]
  rw [hs]
  refine ⟨rfl, ?_⟩
  split_ifs <;> exact ⟨rfl, rfl, rfl, rfl, rfl, rfl, rfl, rfl, rfl⟩

/-- C16 (amended), at a concrete input: the key '*' at tick 2000 leaves an
empty buffer empty and records ('*', 2000). -/
theorem invalid_input_effect_witness :
    (handlePinEntry '*' 2000 0 0 0 (initialState (fun _ => 255))).pinPosition = 0 ∧
    (handlePinEntry '*' 2000 0 0 0 (initialState (fun _ => 255))).lastKey = '*' :=
  have h := invalid_input_effect '*' 2000 0 0 0 (initialState (fun _ => 255))
    (Or.inl (by decide))
  ⟨h.2.2.1, by rw [h.1]; decide⟩

/-! ## The state at boot -/

/-- The attempt count, lockout start and lock flag that `checkLockoutStatus`
leaves depend on the state only through those three, the boot reference and
what `loadRealTimestamp` returns. -/
theorem checkLockoutStatus_congr (ms1 ms2 : Nat) (s t : State)
    (hfa : s.failedAttempts = t.failedAttempts)
    (hst : s.lockoutStartTime = t.lockoutStartTime)
    (hl : s.systemLocked = t.systemLocked)
    (hb : s.systemBootTime = t.systemBootTime)
    (hr : loadRealTimestamp s = loadRealTimestamp t) :
    (checkLockoutStatus ms1 ms2 s).failedAttempts = (checkLockoutStatus ms1 ms2 t).failedAttempts ∧
    (checkLockoutStatus ms1 ms2 s).lockoutStartTime
      = (checkLockoutStatus ms1 ms2 t).lockoutStartTime ∧
    (checkLockoutStatus ms1 ms2 s).systemLocked = (checkLockoutStatus ms1 ms2 t).systemLocked := by
  have he : checkLockoutStatus.elapsedTime ms1 ms2 s = checkLockoutStatus.elapsedTime ms1 ms2 t := by
    simp only [checkLockoutStatus.elapsedTime, getRealTimeSeconds, hst, hb, hr]
  simp only [checkLockoutStatus, hfa, hst, he, saveSecurityState]
  split_ifs <;> simp [hfa, hl, hst]

/-- The attempt count and lockout start that `loadSecurityState` produces
depend on the store only through the attempt byte and the lockout-start
word; the load leaves every other variable and the store alone. -/
theorem loadSecurityState_congr (ms : Nat) (s t : State)
    (h8 : s.EEPROM.get8 ATTEMPTS_ADDR = t.EEPROM.get8 ATTEMPTS_ADDR)
    (h32 : s.EEPROM.get32 LOCKOUT_START_ADDR = t.EEPROM.get32 LOCKOUT_START_ADDR) :
    (loadSecurityState ms s).failedAttempts = (loadSecurityState ms t).failedAttempts ∧
    (loadSecurityState ms s).lockoutStartTime = (loadSecurityState ms t).lockoutStartTime ∧
    (loadSecurityState ms s).systemLocked = s.systemLocked ∧
    (loadSecurityState ms s).systemBootTime = s.systemBootTime ∧
    (loadSecurityState ms s).EEPROM = s.EEPROM := by
  simp only [loadSecurityState, h8, h32]
  split_ifs <;> exact ⟨rfl, rfl, rfl, rfl, rfl⟩

/-- C17 (as stated, refuted): two stores that differ only in the boot
timestamp word (0 against the erased value `0xFFFFFFFF`) give different
lockout decisions at boot. `loadRealTimestamp` treats an erased boot
timestamp as "no real-elapsed record", which switches the evaluation to the
tick-based elapsed time. -/
theorem boot_timestamp_consulted_counterexample :
    let f : Nat → Nat := fun i =>
      if i = 0 then 5 else if i = 4 then 232 else if i = 5 then 3 else if i = 12 then 60 else 0
    let g : Nat → Nat := fun i => if 20 ≤ i ∧ i ≤ 23 then 255 else f i
    (∀ i, i < 32 → i ≠ 8 → ¬ (20 ≤ i ∧ i ≤ 23) → f i = g i) ∧
    (setup 50 55 3060 3060 (initialState f)).systemLocked = false ∧
    (setup 50 55 3060 3060 (initialState f)).failedAttempts = 0 ∧
    (setup 50 55 3060 3060 (initialState g)).systemLocked = true ∧
    (setup 50 55 3060 3060 (initialState g)).failedAttempts = 5 := by
  decide

/-- C17 (amended): let two store contents agree everywhere except in the
lockout flag byte (offset 8) and the boot timestamp word (offsets 20 to 23),
and let the two boot timestamp words be either both the erased value
`0xFFFFFFFF` or both different from it. Then, for the same tick readings,
`setup` (the load followed by the lockout evaluation) produces the same
`failedAttempts`, the same `lockoutStartTime` and the same lock decision. -/
theorem diagnostic_fields_ignored (f g : Nat → Nat) (msBoot msLoad ms1 ms2 : Nat)
    (hagree : ∀ i, i ≠ 8 → ¬ (20 ≤ i ∧ i ≤ 23) → f i = g i)
    (hboot : (initialState f).EEPROM.get32 BOOT_TIMESTAMP_ADDR = ULONG_MAX ↔
      (initialState g).EEPROM.get32 BOOT_TIMESTAMP_ADDR = ULONG_MAX) :
    (setup msBoot msLoad ms1 ms2 (initialState f)).failedAttempts
      = (setup msBoot msLoad ms1 ms2 (initialState g)).failedAttempts ∧
    (setup msBoot msLoad ms1 ms2 (initialState f)).lockoutStartTime
      = (setup msBoot msLoad ms1 ms2 (initialState g)).lockoutStartTime ∧
    (setup msBoot msLoad ms1 ms2 (initialState f)).systemLocked
      = (setup msBoot msLoad ms1 ms2 (initialState g)).systemLocked := by
  have e8 : ∀ a, a ≠ 8 → ¬ (20 ≤ a ∧ a ≤ 23) →
      (initialState f).EEPROM.get8 a = (initialState g).EEPROM.get8 a := by
    intro a h1 h2
    simp only [initialState, EEPROMClass.begin, EEPROMClass.get8, hagree a h1 h2]
  have e32 : ∀ a, a + 3 < 8 ∨ (8 < a ∧ a + 3 < 20) →
      (initialState f).EEPROM.get32 a = (initialState g).EEPROM.get32 a := by
    intro a h
    simp only [EEPROMClass.get32]
    rw [e8 a (by omega) (by omega), e8 (a + 1) (by omega) (by omega),
      e8 (a + 2) (by omega) (by omega), e8 (a + 3) (by omega) (by omega)]
  have hts := e32 LOCKOUT_TIMESTAMP_ADDR (Or.inr (by decide))
  have hreal : loadRealTimestamp (initialState f) = loadRealTimestamp (initialState g) := by
    simp only [loadRealTimestamp, hts]
    by_cases hb : (initialState f).EEPROM.get32 BOOT_TIMESTAMP_ADDR = ULONG_MAX
    · simp [hb, hboot.mp hb]
    · have hb2 : ¬ ((initialState g).EEPROM.get32 BOOT_TIMESTAMP_ADDR = ULONG_MAX) :=
        fun h => hb (hboot.mpr h)
      simp [hb, hb2]
  obtain ⟨l1, l2, l3, l4, l5⟩ := loadSecurityState_congr msLoad
    (initializeRTC msBoot { initialState f with relay := false })
    (initializeRTC msBoot { initialState g with relay := false })
    (e8 ATTEMPTS_ADDR (by decide) (by decide)) (e32 LOCKOUT_START_ADDR (Or.inl (by decide)))
  obtain ⟨-, -, m3, m4, m5⟩ := loadSecurityState_congr msLoad
    (initializeRTC msBoot { initialState g with relay := false })
    (initializeRTC msBoot { initialState g with relay := false }) rfl rfl
  have hr2 : loadRealTimestamp
        (loadSecurityState msLoad (initializeRTC msBoot { initialState f with relay := false }))
      = loadRealTimestamp
        (loadSecurityState msLoad (initializeRTC msBoot { initialState g with relay := false })) := by
    have a1 : loadRealTimestamp
        (loadSecurityState msLoad (initializeRTC msBoot { initialState f with relay := false }))
        = loadRealTimestamp (initialState f) := by
      simp only [loadRealTimestamp, l5]; rfl
    have a2 : loadRealTimestamp
        (loadSecurityState msLoad (initializeRTC msBoot { initialState g with relay := false }))
        = loadRealTimestamp (initialState g) := by
      simp only [loadRealTimestamp, m5]; rfl
    rw [a1, a2, hreal]
  exact checkLockoutStatus_congr ms1 ms2 _ _ l1 l2 (by rw [l3, m3]; rfl) (by rw [l4, m4]; rfl) hr2

/-- C17 (amended), at a concrete input: a store with the lockout flag byte set
and one with it clear, otherwise equal, boot to the same lock decision. -/
theorem diagnostic_fields_ignored_witness :
    (setup 50 55 3060 3060 (initialState (fun i => if i = 8 then 1 else 0))).systemLocked
      = (setup 50 55 3060 3060 (initialState (fun _ => 0))).systemLocked :=
  (diagnostic_fields_ignored (fun i => if i = 8 then 1 else 0) (fun _ => 0) 50 55 3060 3060
    (fun i h1 _ => by simp [h1]) (by decide)).2.2

/-- C18 (the code at the failing input): a store holding five attempts and a
lockout start of 0 (what `verifyPin` commits when its `millis()` reading is 0
at the moment of the lockout) boots into a state that is not locked although
`failedAttempts = MAX_ATTEMPTS`: `checkLockoutStatus` takes neither of its
branches. The PIN screen is then offered: the next pass of `loop` accepts a
digit. -/
theorem boot_unlocked_with_exhausted_attempts :
    (setup 50 55 3060 3060 (initialState (fun i => if i = 0 then 5 else 0))).systemLocked
      = false ∧
    (setup 50 55 3060 3060 (initialState (fun i => if i = 0 then 5 else 0))).authenticated
      = false ∧
    (setup 50 55 3060 3060 (initialState (fun i => if i = 0 then 5 else 0))).failedAttempts
      = MAX_ATTEMPTS ∧
    (loop { key := '7', ms := 4000, ms1 := 4000, ms2 := 4000, ms3 := 4000,
            lock1 := 4000, lock2 := 4000 }
      (setup 50 55 3060 3060 (initialState (fun i => if i = 0 then 5 else 0)))).pinPosition = 1 ∧
    (let w := verifyPin 0 0 0 { initialState (fun _ => 255) with failedAttempts := 4 }
     w.EEPROM.flash8 ATTEMPTS_ADDR = 5 ∧ w.EEPROM.flash32 LOCKOUT_START_ADDR = 0 ∧
     (setup 50 55 3060 3060 (reboot w)).systemLocked = false ∧
     (setup 50 55 3060 3060 (reboot w)).failedAttempts = MAX_ATTEMPTS) := by
  decide

/-! ## Well-formedness of the PIN buffer -/

/-- C20 (as stated, refuted): the state is "discharging" with the timer at
tick 1000; a charging reading at tick 1500 wants a flip inside the debounce
window. The flip is rejected and the timer is not refreshed: it stays at
1000. -/
theorem charge_timer_not_refreshed_counterexample :
    (updatePowerData (-1) (-1) 1500
      { isCharging := false, wasCharging := false, lastChargeChange := 1000 }).isCharging = false ∧
    (updatePowerData (-1) (-1) 1500
      { isCharging := false, wasCharging := false, lastChargeChange := 1000 }).lastChargeChange
      = 1000 := by
  norm_num [updatePowerData, CHARGING_CURRENT, DISCHARGING_CURRENT, SHUNT_VOLTAGE_CHARGING,
    SHUNT_VOLTAGE_DISCHARGING, usub]

theorem ticksFrom_weaken (xs : List Sample) (lo lo2 : Nat) (h : lo2 ≤ lo)
    (ht : ticksFrom lo xs) : ticksFrom lo2 xs := by
  cases xs with
  | nil => trivial
  | cons x xs => exact ⟨le_trans h ht.1, ht.2⟩

/-- What one sample does to the timer: a flip sets it to the current tick and
needs more than `CHARGE_DEBOUNCE` on the timer; otherwise the timer is the
current tick or what it was. -/
theorem updatePowerData_timer (shuntVoltage current_A : ℚ) (now : Nat) (p : PowerState) :
    ((updatePowerData shuntVoltage current_A now p).isCharging ≠ p.isCharging →
      (updatePowerData shuntVoltage current_A now p).lastChargeChange = now ∧
      usub now p.lastChargeChange > CHARGE_DEBOUNCE) ∧
    ((updatePowerData shuntVoltage current_A now p).lastChargeChange = now ∨
      (updatePowerData shuntVoltage current_A now p).lastChargeChange = p.lastChargeChange) := by
  simp only [updatePowerData]
  split_ifs <;> simp_all

/-- Along a run of samples whose ticks never go back, the tick of the last
accepted flip is at most the timer, and the timer is at most the tick of the
sample that comes next. -/
theorem sampleRun_invariant (x : Sample) (xs : List Sample) :
    ∀ st : PowerState × Nat, st.2 ≤ st.1.lastChargeChange →
      ticksFrom st.1.lastChargeChange (xs ++ [x]) →
      (xs.foldl sampleStep st).2 ≤ (xs.foldl sampleStep st).1.lastChargeChange ∧
      (xs.foldl sampleStep st).1.lastChargeChange ≤ x.now := by
  induction xs with
  | nil => intro st h ht; exact ⟨h, ht.1⟩
  | cons y ys ih =>
    intro st h ht
    rw [List.foldl_cons]
    obtain ⟨hy, hrest⟩ := ht
    obtain ⟨t1, t2⟩ := updatePowerData_timer y.shuntVoltage y.current_A y.now st.1
    have hle : (sampleStep st y).1.lastChargeChange ≤ y.now := by
      rcases t2 with e | e
      · exact le_of_eq e
      · exact le_trans (le_of_eq e) hy
    have hge : (sampleStep st y).2 ≤ (sampleStep st y).1.lastChargeChange := by
      by_cases hf : (updatePowerData y.shuntVoltage y.current_A y.now st.1).isCharging
          ≠ st.1.isCharging
      · have e1 : (sampleStep st y).2 = y.now := if_pos hf
        have e2 : (sampleStep st y).1.lastChargeChange = y.now := (t1 hf).1
        rw [e1, e2]
      · have e1 : (sampleStep st y).2 = st.2 := if_neg hf
        rw [e1]
        rcases t2 with e | e
        · exact le_trans h (le_trans hy (le_of_eq e.symm))
        · exact le_trans h (le_of_eq e.symm)
    exact ih (sampleStep st y) hge (ticksFrom_weaken _ _ _ hle hrest)

/-- C20 (amended): in `updatePowerData`, with the raw readings as inputs,
`isCharging` flips only when the reading crosses the threshold of the other
direction and more than `CHARGE_DEBOUNCE` ms have passed on the timer
`lastChargeChange`; a reading that would flip the state within the window
changes neither `isCharging` nor `lastChargeChange`; `lastChargeChange` is set
to the current tick by every sample that flips the state and by every sample
that asks for no flip. Along any run of samples whose ticks never go back, a
flip therefore comes more than `CHARGE_DEBOUNCE` ms after the last accepted
flip. -/
theorem charge_hysteresis (shuntVoltage current_A : ℚ) (now : Nat) (p : PowerState) :
    let q := updatePowerData shuntVoltage current_A now p
    let charging := current_A ≤ CHARGING_CURRENT ∨ shuntVoltage ≤ SHUNT_VOLTAGE_CHARGING
    let discharging := ¬ charging ∧
      (current_A ≥ DISCHARGING_CURRENT ∨ shuntVoltage ≥ SHUNT_VOLTAGE_DISCHARGING)
    let wantsFlip := (p.isCharging = false ∧ charging) ∨ (p.isCharging = true ∧ discharging)
    q.wasCharging = p.isCharging ∧
    (q.isCharging ≠ p.isCharging →
      wantsFlip ∧ usub now p.lastChargeChange > CHARGE_DEBOUNCE ∧ q.lastChargeChange = now) ∧
    (wantsFlip → usub now p.lastChargeChange > CHARGE_DEBOUNCE →
      q.isCharging = (!p.isCharging) ∧ q.lastChargeChange = now) ∧
    (wantsFlip → usub now p.lastChargeChange ≤ CHARGE_DEBOUNCE →
      q.isCharging = p.isCharging ∧ q.lastChargeChange = p.lastChargeChange) ∧
    (¬ wantsFlip → q.isCharging = p.isCharging ∧ q.lastChargeChange = now) ∧
    (∀ (p0 : PowerState) (t0 : Nat) (xs : List Sample),
      t0 ≤ p0.lastChargeChange →
      ticksFrom p0.lastChargeChange
        (xs ++ [{ shuntVoltage := shuntVoltage, current_A := current_A, now := now }]) →
      now < 4294967296 →
      (xs.foldl sampleStep (p0, t0)).1 = p →
      q.isCharging ≠ p.isCharging →
      now - (xs.foldl sampleStep (p0, t0)).2 > CHARGE_DEBOUNCE) := by
  intro q charging discharging wantsFlip
  have hrun : ∀ (p0 : PowerState) (t0 : Nat) (xs : List Sample),
      t0 ≤ p0.lastChargeChange →
      ticksFrom p0.lastChargeChange
        (xs ++ [{ shuntVoltage := shuntVoltage, current_A := current_A, now := now }]) →
      now < 4294967296 →
      (xs.foldl sampleStep (p0, t0)).1 = p →
      q.isCharging ≠ p.isCharging →
      now - (xs.foldl sampleStep (p0, t0)).2 > CHARGE_DEBOUNCE := by
    intro p0 t0 xs h0 ht hlt hp hflip
    obtain ⟨i1, i2⟩ := sampleRun_invariant
      { shuntVoltage := shuntVoltage, current_A := current_A, now := now } xs (p0, t0) h0 ht
    rw [hp] at i1 i2
    have hu := ((updatePowerData_timer shuntVoltage current_A now p).1 hflip).2
    have i2' : p.lastChargeChange ≤ now := i2
    rw [usub_of_le i2' hlt] at hu
    omega
  by_cases hc : current_A ≤ CHARGING_CURRENT ∨ shuntVoltage ≤ SHUNT_VOLTAGE_CHARGING
  · by_cases hd : usub now p.lastChargeChange > CHARGE_DEBOUNCE
    · refine ⟨?_, ?_, ?_, ?_, ?_, hrun⟩ <;> cases hp : p.isCharging <;>
        simp [q, wantsFlip, charging, discharging, updatePowerData, hc, hd, hp]
    · refine ⟨?_, ?_, ?_, ?_, ?_, hrun⟩ <;> cases hp : p.isCharging <;>
        simp [q, wantsFlip, charging, discharging, updatePowerData, hc, hd, hp]
  · by_cases hdis : current_A ≥ DISCHARGING_CURRENT ∨ shuntVoltage ≥ SHUNT_VOLTAGE_DISCHARGING
    · by_cases hd : usub now p.lastChargeChange > CHARGE_DEBOUNCE
      · refine ⟨?_, ?_, ?_, ?_, ?_, hrun⟩ <;> cases hp : p.isCharging <;>
          simp [q, wantsFlip, charging, discharging, updatePowerData, hc, hdis, hd, hp]
      · refine ⟨?_, ?_, ?_, ?_, ?_, hrun⟩ <;> cases hp : p.isCharging <;>
          simp [q, wantsFlip, charging, discharging, updatePowerData, hc, hdis, hd, hp]
    · refine ⟨?_, ?_, ?_, ?_, ?_, hrun⟩ <;> cases hp : p.isCharging <;>
        simp [q, wantsFlip, charging, discharging, updatePowerData, hc, hdis, hp]

/-- C20 (amended), at concrete inputs: from "discharging" with the timer at
tick 1000, a charging reading at tick 2001 flips the state, and the same
reading at tick 2000 does not and leaves the timer at 1000. -/
theorem charge_hysteresis_witness :
    (updatePowerData (-1) (-1) 2001
      { isCharging := false, wasCharging := false, lastChargeChange := 1000 }).isCharging = true ∧
    (updatePowerData (-1) (-1) 2000
      { isCharging := false, wasCharging := false, lastChargeChange := 1000 }).lastChargeChange
      = 1000 :=
  ⟨((charge_hysteresis (-1) (-1) 2001
      { isCharging := false, wasCharging := false, lastChargeChange := 1000 }).2.2.1
      (Or.inl ⟨rfl, Or.inl (by norm_num [CHARGING_CURRENT])⟩) (by decide)).1,
   ((charge_hysteresis (-1) (-1) 2000
      { isCharging := false, wasCharging := false, lastChargeChange := 1000 }).2.2.2.1
      (Or.inl ⟨rfl, Or.inl (by norm_num [CHARGING_CURRENT])⟩) (by decide)).2⟩

/-! ## The two copies of the expiry logic -/

/-- C21 (as stated, refuted): in a state with exhausted attempts and a lockout
start of 1000 that is not yet marked locked (as after `loadSecurityState` at
boot), evaluated at tick 3060 with no real-elapsed record, the lockout has not
expired; `checkLockoutStatus` sets `systemLocked`, while the check at the top
of `handleLockoutScreen` leaves it false. -/
theorem lockout_copies_differ_counterexample :
    (checkLockoutStatus 3060 3060
      { initialState (fun _ => 255) with
        failedAttempts := 5, lockoutStartTime := 1000 }).systemLocked = true ∧
    (handleLockoutScreen 3060 3060
      { initialState (fun _ => 255) with
        failedAttempts := 5, lockoutStartTime := 1000 }).systemLocked = false ∧
    checkLockoutStatus.elapsedTime 3060 3060
      { initialState (fun _ => 255) with
        failedAttempts := 5, lockoutStartTime := 1000 } = 2060 := by
  decide

/-- C21 (amended): in every state with exhausted attempts and a lockout start
above 0, for every store content and all readings, `checkLockoutStatus` and
the check at the top of `handleLockoutScreen` compute the same elapsed time
and take the same decision (expired exactly when it is at least
`LOCKOUT_DURATION`), and leave the same `failedAttempts`, `lockoutStartTime`,
`lockoutRealStartTime` and store. They leave the same `systemLocked` when the
lockout has expired (false) and when the state was already locked; for a
lockout that has not expired `checkLockoutStatus` sets `systemLocked` and
`handleLockoutScreen` leaves it as it was. -/
theorem lockout_copies_agree (ms1 ms2 : Nat) (s : State)
    (hfa : s.failedAttempts ≥ MAX_ATTEMPTS) (hst : s.lockoutStartTime > 0) :
    handleLockoutScreen.elapsedTime ms1 ms2 s = checkLockoutStatus.elapsedTime ms1 ms2 s ∧
    (checkLockoutStatus ms1 ms2 s).failedAttempts
      = (handleLockoutScreen ms1 ms2 s).failedAttempts ∧
    (checkLockoutStatus ms1 ms2 s).lockoutStartTime
      = (handleLockoutScreen ms1 ms2 s).lockoutStartTime ∧
    (checkLockoutStatus ms1 ms2 s).lockoutRealStartTime
      = (handleLockoutScreen ms1 ms2 s).lockoutRealStartTime ∧
    (checkLockoutStatus ms1 ms2 s).EEPROM = (handleLockoutScreen ms1 ms2 s).EEPROM ∧
    (checkLockoutStatus.elapsedTime ms1 ms2 s ≥ LOCKOUT_DURATION →
      (checkLockoutStatus ms1 ms2 s).systemLocked = false ∧
      (handleLockoutScreen ms1 ms2 s).systemLocked = false ∧
      (checkLockoutStatus ms1 ms2 s).failedAttempts = 0) ∧
    (checkLockoutStatus.elapsedTime ms1 ms2 s < LOCKOUT_DURATION →
      (checkLockoutStatus ms1 ms2 s).systemLocked = true ∧
      (handleLockoutScreen ms1 ms2 s).systemLocked = s.systemLocked ∧
      (checkLockoutStatus ms1 ms2 s).failedAttempts = s.failedAttempts) ∧
    (s.systemLocked = true →
      (checkLockoutStatus ms1 ms2 s).systemLocked
        = (handleLockoutScreen ms1 ms2 s).systemLocked) := by
  have he : handleLockoutScreen.elapsedTime ms1 ms2 s
      = checkLockoutStatus.elapsedTime ms1 ms2 s := rfl
  by_cases hexp : checkLockoutStatus.elapsedTime ms1 ms2 s < LOCKOUT_DURATION
  · have hn : ¬ (checkLockoutStatus.elapsedTime ms1 ms2 s ≥ LOCKOUT_DURATION) := by omega
    have hc : checkLockoutStatus ms1 ms2 s = { s with systemLocked := true } := by
      simp only [checkLockoutStatus, hfa, hst, hexp, and_self, if_true]
    have hh : handleLockoutScreen ms1 ms2 s = s := by
      simp only [handleLockoutScreen, he, hn, if_false]
    rw [hc, hh]
    exact ⟨he, rfl, rfl, rfl, rfl, fun h => absurd h hn, fun _ => ⟨rfl, rfl, rfl⟩,
      fun hl => hl.symm⟩
  · have hge : checkLockoutStatus.elapsedTime ms1 ms2 s ≥ LOCKOUT_DURATION := by omega
    have hc : checkLockoutStatus ms1 ms2 s = saveSecurityState { s with
        failedAttempts := 0
        lockoutStartTime := 0
        lockoutRealStartTime := 0
        systemLocked := false } := by
      simp only [checkLockoutStatus, hfa, hst, hexp, and_self, if_true, if_false]
    have hh : handleLockoutScreen ms1 ms2 s = resetPinEntry (saveSecurityState { s with
        failedAttempts := 0
        lockoutStartTime := 0
        lockoutRealStartTime := 0
        systemLocked := false }) := by
      simp only [handleLockoutScreen, he, hge, if_true]
    rw [hc, hh]
    exact ⟨he, rfl, rfl, rfl, rfl, fun _ => ⟨rfl, rfl, rfl⟩, fun h => absurd h hexp,
      fun _ => rfl⟩

/-- C21 (amended), at a concrete input: for the locked state that the fifth
wrong entry at tick 5000 leaves, both evaluations at tick 125000 unlock and
leave the same store. -/
theorem lockout_copies_agree_witness :
    (checkLockoutStatus 125000 125000
      (verifyPin 5000 5000 5000
        { initialState (fun _ => 255) with failedAttempts := 4 })).EEPROM
      = (handleLockoutScreen 125000 125000
        (verifyPin 5000 5000 5000
          { initialState (fun _ => 255) with failedAttempts := 4 })).EEPROM :=
  (lockout_copies_agree 125000 125000
    (verifyPin 5000 5000 5000 { initialState (fun _ => 255) with failedAttempts := 4 })
    (by decide) (by decide)).2.2.2.2.1

/-! ## Save and load -/

/-- What `loadSecurityState` returns when the stored attempt count and lockout
start pass its two checks. -/
theorem loadSecurityState_accepts (ms : Nat) (s : State)
    (hfa : s.EEPROM.get8 ATTEMPTS_ADDR ≤ MAX_ATTEMPTS)
    (hst : s.EEPROM.get32 LOCKOUT_START_ADDR ≤ uadd ms LOCKOUT_DURATION)
    (hne : s.EEPROM.get32 LOCKOUT_START_ADDR ≠ ULONG_MAX) :
    (loadSecurityState ms s).failedAttempts = s.EEPROM.get8 ATTEMPTS_ADDR ∧
    (loadSecurityState ms s).lockoutStartTime = s.EEPROM.get32 LOCKOUT_START_ADDR := by
  have h1 : ¬ (s.EEPROM.get8 ATTEMPTS_ADDR > MAX_ATTEMPTS ∨ s.EEPROM.get8 ATTEMPTS_ADDR = 255) := by
    have h5 : s.EEPROM.get8 ATTEMPTS_ADDR ≤ 5 := hfa
    intro h
    rcases h with h | h
    · have h6 : s.EEPROM.get8 ATTEMPTS_ADDR > 5 := h
      omega
    · omega
  have h2 : ¬ (s.EEPROM.get32 LOCKOUT_START_ADDR > uadd ms LOCKOUT_DURATION ∨
      s.EEPROM.get32 LOCKOUT_START_ADDR = ULONG_MAX) := by
    intro h
    rcases h with h | h
    · omega
    · exact hne h
  simp only [loadSecurityState, h1, h2, if_false]
  exact ⟨trivial, trivial⟩

/-- After a power cycle the working copy of the store is its committed
content. -/
theorem reboot_store (s : State) :
    (∀ a, (reboot s).EEPROM.get8 a = s.EEPROM.flash8 a) ∧
    (∀ a, (reboot s).EEPROM.get32 a = s.EEPROM.flash32 a) := by
  constructor <;> intro a <;> rfl

theorem isValidKeyPress_store (key : Char) (ms : Nat) (s : State) :
    (isValidKeyPress key ms s).2.EEPROM = s.EEPROM := by
  simp only [isValidKeyPress]
  split_ifs <;> rfl

/-- Every path of `verifyPin` ends in `saveSecurityState`, whose commit leaves
no write pending. -/
theorem verifyPin_committed (ms1 ms2 ms3 : Nat) (s : State) :
    (verifyPin ms1 ms2 ms3 s).EEPROM.flash = (verifyPin ms1 ms2 ms3 s).EEPROM.data := by
  simp only [verifyPin]
  split_ifs <;> rfl

theorem handlePinEntry_committed (key : Char) (ms ms1 ms2 ms3 : Nat) (s : State)
    (h : s.EEPROM.flash = s.EEPROM.data) :
    (handlePinEntry key ms ms1 ms2 ms3 s).EEPROM.flash
      = (handlePinEntry key ms ms1 ms2 ms3 s).EEPROM.data := by
  have hk : (isValidKeyPress key ms s).2.EEPROM.flash = (isValidKeyPress key ms s).2.EEPROM.data := by
    rw [isValidKeyPress_store]; exact h
  simp only [handlePinEntry, deleteLastDigit]
  split_ifs
  · exact hk
  · exact hk
  · exact verifyPin_committed _ _ _ _
  · exact hk
  · exact hk
  · exact h

theorem handleLockoutScreen_committed (ms1 ms2 : Nat) (s : State)
    (h : s.EEPROM.flash = s.EEPROM.data) :
    (handleLockoutScreen ms1 ms2 s).EEPROM.flash = (handleLockoutScreen ms1 ms2 s).EEPROM.data := by
  simp only [handleLockoutScreen]
  split_ifs
  · rfl
  · exact h

theorem checkLockoutStatus_committed (ms1 ms2 : Nat) (s : State)
    (h : s.EEPROM.flash = s.EEPROM.data) :
    (checkLockoutStatus ms1 ms2 s).EEPROM.flash = (checkLockoutStatus ms1 ms2 s).EEPROM.data := by
  simp only [checkLockoutStatus]
  split_ifs
  · exact h
  · rfl
  · exact h
  · exact h

theorem loadSecurityState_store (ms : Nat) (s : State) :
    (loadSecurityState ms s).EEPROM = s.EEPROM := by
  simp only [loadSecurityState]
  split_ifs <;> rfl

theorem loop_committed (x : LoopInput) (s : State) (h : s.EEPROM.flash = s.EEPROM.data) :
    (loop x s).EEPROM.flash = (loop x s).EEPROM.data := by
  simp only [loop]
  split_ifs
  · exact handleLockoutScreen_committed _ _ s h
  · exact handlePinEntry_committed _ _ _ _ _ s h
  · exact h

/-- In every state the program reaches from boot, the committed content of the
store is its working copy: no write is ever left pending between two calls. -/
theorem run_committed (flash : Nat → Nat) (msBoot msLoad ms1 ms2 : Nat) (xs : List LoopInput) :
    (xs.foldl (fun s x => loop x s)
        (setup msBoot msLoad ms1 ms2 (initialState flash))).EEPROM.flash
      = (xs.foldl (fun s x => loop x s)
        (setup msBoot msLoad ms1 ms2 (initialState flash))).EEPROM.data := by
  have hsetup : (setup msBoot msLoad ms1 ms2 (initialState flash)).EEPROM.flash
      = (setup msBoot msLoad ms1 ms2 (initialState flash)).EEPROM.data := by
    apply checkLockoutStatus_committed
    rw [loadSecurityState_store]
    rfl
  have hrun : ∀ (ys : List LoopInput) (s : State), s.EEPROM.flash = s.EEPROM.data →
      (ys.foldl (fun s x => loop x s) s).EEPROM.flash
        = (ys.foldl (fun s x => loop x s) s).EEPROM.data := by
    intro ys
    induction ys with
    | nil => intro s h; exact h
    | cons y ys ih =>
      intro s h
      rw [List.foldl_cons]
      exact ih _ (loop_committed y s h)
  exact hrun xs _ hsetup

/-- C22: for every state with `failedAttempts ≤ MAX_ATTEMPTS` and a 32-bit
`lockoutStartTime` that is not `0xFFFFFFFF` and not greater than
`now + LOCKOUT_DURATION` at load time, `saveSecurityState` followed by
`loadSecurityState` at tick `now`, in the same session and after a power
cycle, returns the same `failedAttempts` and `lockoutStartTime`. This holds
with the plain sum at every load tick where it fits in 32 bits, and at every
tick with the 32-bit sum the load itself computes. `saveSecurityState` changes
no byte of the store outside offsets 0, 4 to 7 and 8: the working copy keeps
every other byte, the commit makes the committed content equal to the working
copy, so every other committed byte is unchanged where it matched the working
copy, which it does in every state the program reaches; the real-timestamp
and boot-timestamp words read the same before and after. -/
theorem save_load_roundtrip (now : Nat) (s : State)
    (hfa : s.failedAttempts ≤ MAX_ATTEMPTS)
    (hlt : s.lockoutStartTime < 4294967296) (hne : s.lockoutStartTime ≠ ULONG_MAX) :
    (now + LOCKOUT_DURATION < 4294967296 → s.lockoutStartTime ≤ now + LOCKOUT_DURATION →
      (loadSecurityState now (saveSecurityState s)).failedAttempts = s.failedAttempts ∧
      (loadSecurityState now (saveSecurityState s)).lockoutStartTime = s.lockoutStartTime ∧
      (loadSecurityState now (reboot (saveSecurityState s))).failedAttempts
        = s.failedAttempts ∧
      (loadSecurityState now (reboot (saveSecurityState s))).lockoutStartTime
        = s.lockoutStartTime) ∧
    (s.lockoutStartTime ≤ uadd now LOCKOUT_DURATION →
      (loadSecurityState now (saveSecurityState s)).failedAttempts = s.failedAttempts ∧
      (loadSecurityState now (saveSecurityState s)).lockoutStartTime = s.lockoutStartTime ∧
      (loadSecurityState now (reboot (saveSecurityState s))).failedAttempts
        = s.failedAttempts ∧
      (loadSecurityState now (reboot (saveSecurityState s))).lockoutStartTime
        = s.lockoutStartTime) ∧
    (∀ i, i ≠ 0 → ¬ (4 ≤ i ∧ i ≤ 7) → i ≠ 8 →
      (saveSecurityState s).EEPROM.data i = s.EEPROM.data i) ∧
    (saveSecurityState s).EEPROM.flash = (saveSecurityState s).EEPROM.data ∧
    (∀ i, i ≠ 0 → ¬ (4 ≤ i ∧ i ≤ 7) → i ≠ 8 → s.EEPROM.flash i = s.EEPROM.data i →
      (saveSecurityState s).EEPROM.flash i = s.EEPROM.flash i) ∧
    (saveSecurityState s).EEPROM.get32 LOCKOUT_TIMESTAMP_ADDR
      = s.EEPROM.get32 LOCKOUT_TIMESTAMP_ADDR ∧
    (saveSecurityState s).EEPROM.get32 BOOT_TIMESTAMP_ADDR
      = s.EEPROM.get32 BOOT_TIMESTAMP_ADDR ∧
    (∀ (flash : Nat → Nat) (msBoot msLoad ms1 ms2 : Nat) (xs : List LoopInput),
      (xs.foldl (fun s x => loop x s)
          (setup msBoot msLoad ms1 ms2 (initialState flash))).EEPROM.flash
        = (xs.foldl (fun s x => loop x s)
          (setup msBoot msLoad ms1 ms2 (initialState flash))).EEPROM.data) := by
  obtain ⟨h0, h1, h2, -, h4, h5⟩ := saveSecurityState_store s
  have e8 : (saveSecurityState s).EEPROM.get8 ATTEMPTS_ADDR = s.failedAttempts := by
    rw [h1]; unfold MAX_ATTEMPTS at hfa; omega
  have e32 : (saveSecurityState s).EEPROM.get32 LOCKOUT_START_ADDR = s.lockoutStartTime := by
    rw [h2]; omega
  obtain ⟨f8, f32⟩ := flash_eq_get (saveSecurityState s).EEPROM h0
  obtain ⟨r8, r32⟩ := reboot_store (saveSecurityState s)
  have key : s.lockoutStartTime ≤ uadd now LOCKOUT_DURATION →
      (loadSecurityState now (saveSecurityState s)).failedAttempts = s.failedAttempts ∧
      (loadSecurityState now (saveSecurityState s)).lockoutStartTime = s.lockoutStartTime ∧
      (loadSecurityState now (reboot (saveSecurityState s))).failedAttempts
        = s.failedAttempts ∧
      (loadSecurityState now (reboot (saveSecurityState s))).lockoutStartTime
        = s.lockoutStartTime := by
    intro hfut
    have a := loadSecurityState_accepts now (saveSecurityState s)
      (by rw [e8]; exact hfa) (by rw [e32]; exact hfut) (by rw [e32]; exact hne)
    have b := loadSecurityState_accepts now (reboot (saveSecurityState s))
      (by rw [r8, f8, e8]; exact hfa) (by rw [r32, f32, e32]; exact hfut)
      (by rw [r32, f32, e32]; exact hne)
    rw [e8, e32] at a
    rw [r8, f8, e8, r32, f32, e32] at b
    exact ⟨a.1, a.2, b.1, b.2⟩
  have hdata : ∀ i, i ≠ 0 → ¬ (4 ≤ i ∧ i ≤ 7) → i ≠ 8 →
      (saveSecurityState s).EEPROM.data i = s.EEPROM.data i := by
    intro i i0 i4 i8
    have c4 : i ≠ 4 := by omega
    have c5 : i ≠ 5 := by omega
    have c6 : i ≠ 6 := by omega
    have c7 : i ≠ 7 := by omega
    simp [saveSecurityState, EEPROMClass.put8, EEPROMClass.put32, EEPROMClass.commit,
      ATTEMPTS_ADDR, LOCKOUT_START_ADDR, LOCKOUT_ACTIVE_ADDR, i0, i8, c4, c5, c6, c7]
  refine ⟨fun hfit hle => key ?_, key, hdata, h0, ?_, h4, h5, run_committed⟩
  · have : uadd now LOCKOUT_DURATION = now + LOCKOUT_DURATION := by
      unfold uadd; omega
    rw [this]; exact hle
  · intro i i0 i4 i8 hp
    rw [h0, hdata i i0 i4 i8, hp]

/-- C22, at a concrete input: three attempts and a lockout start of 60000,
saved and then loaded at tick 55 after a power cycle, come back unchanged. -/
theorem save_load_roundtrip_witness :
    (loadSecurityState 55 (reboot (saveSecurityState
      { initialState (fun _ => 255) with
        failedAttempts := 3, lockoutStartTime := 60000 }))).failedAttempts = 3 ∧
    (loadSecurityState 55 (reboot (saveSecurityState
      { initialState (fun _ => 255) with
        failedAttempts := 3, lockoutStartTime := 60000 }))).lockoutStartTime = 60000 :=
  have h := (save_load_roundtrip 55
    { initialState (fun _ => 255) with failedAttempts := 3, lockoutStartTime := 60000 }
    (by decide) (by decide) (by decide)).1 (by decide) (by decide)
  ⟨h.2.2.1, h.2.2.2⟩

end Energram
